import Mathlib

/-!
# Issue tracker: validation layer and Issue API

A shallow embedding of `server/middleware/validators.js`, `server/routes/issues.js`
and the error handler of `server/server.js`.

* A request is the record of the five values the handlers read: `req.params.id`
  and the body fields `title`, `description`, `status`, `priority`.  A value is
  `none` (JavaScript `undefined`, the key is missing), JSON `null`, or a JSON
  string.  JSON numbers, booleans, arrays and objects as field values are
  outside this model.
* Validation chains are data (`Chain`), run by `runChain`, which follows the
  chain runner of express-validator: the items of a chain run in order, a
  sanitizer replaces the value, a failing validator records an error and the
  chain goes on, an optional chain skips the items while the value is missing.
* The store is the table `issues`, a list of rows in insertion order together
  with the next identifier of the sequence.  `db.query` is `dbQuery`.  The `db`
  module, the table schema and the store engine are not among the sources:
  what the store does with a statement, the order of rows of equal
  `created_at` under `ORDER BY created_at DESC` included, follows the
  specification.
* A character is a code point.  `isLength` of validator.js does not count the
  variation selectors U+FE0E and U+FE0F: the length it compares with `max` is
  `countedLength`, while `notEmpty` and the falsy test look at the string as
  it is.
-/

namespace IssueTracker

/-! ## Values and strings -/

/-- JSON value of a request field: `null` or a string. -/
inductive Json where
  | null
  | str (s : String)
deriving DecidableEq

/-- White space of the JavaScript regular expression class `\s`, which is what
`trim` of validator.js strips. -/
def isSpace (c : Char) : Bool :=
  let n := c.toNat
  n = 0x20 || n = 0x09 || n = 0x0A || n = 0x0B || n = 0x0C || n = 0x0D ||
  n = 0xA0 || n = 0x1680 || (0x2000 ≤ n && n ≤ 0x200A) ||
  n = 0x2028 || n = 0x2029 || n = 0x202F || n = 0x205F || n = 0x3000 || n = 0xFEFF

/-- Strip leading and trailing white space from a list of characters. -/
def trimChars (cs : List Char) : List Char :=
  (cs.dropWhile isSpace).rdropWhile isSpace

/-- The sanitizer `trim()` on a string. -/
def trim (s : String) : String := ⟨trimChars s.data⟩

/-- The variation selectors U+FE0E and U+FE0F, which `isLength` of validator.js
leaves out of the length. -/
def isVariationSelector (c : Char) : Bool :=
  c.toNat = 0xFE0F || c.toNat = 0xFE0E

/-- The length `isLength` of validator.js measures: the number of code points
(a surrogate pair counts once) less the variation selectors U+FE0E and
U+FE0F. -/
def countedLength (s : String) : Nat :=
  (s.data.filter (fun c => !isVariationSelector c)).length

/-- The string a standard validator or sanitizer of express-validator works on:
`undefined` and `null` become the empty string, a string is itself. -/
def toStr : Option Json → String
  | none => ""
  | some .null => ""
  | some (.str s) => s

/-- The regular expression `^[-+]?[0-9]+$` of `isInt` (leading zeroes allowed,
the default). -/
def matchesInt : List Char → Bool
  | '-' :: ds => !ds.isEmpty && ds.all Char.isDigit
  | '+' :: ds => !ds.isEmpty && ds.all Char.isDigit
  | ds => !ds.isEmpty && ds.all Char.isDigit

/-- Value of a string of decimal digits. -/
def digitsValue (ds : List Char) : Nat :=
  ds.foldl (fun n c => 10 * n + (c.toNat - '0'.toNat)) 0

/-- The number an optionally signed string of digits converts to. -/
def numberOf : List Char → Int
  | '-' :: ds => - (digitsValue ds : Int)
  | '+' :: ds => (digitsValue ds : Int)
  | ds => (digitsValue ds : Int)

/-! ## Validation chains -/

/-- Where a validated field lives in the request. -/
inductive Location where
  | body
  | params
deriving DecidableEq

/-- The fields the chains of this application address. -/
inductive Field where
  | id
  | title
  | description
  | status
  | priority
deriving DecidableEq

/-- Location of a field: `param('id')`, `body(...)` for the others. -/
def Field.location : Field → Location
  | .id => .params
  | _ => .body

/-- Key of a field in its location. -/
def Field.path : Field → String
  | .id => "id"
  | .title => "title"
  | .description => "description"
  | .status => "status"
  | .priority => "priority"

/-- The values of a request that the validators and handlers read. -/
structure Request where
  id : Option Json := none
  title : Option Json := none
  description : Option Json := none
  status : Option Json := none
  priority : Option Json := none
deriving DecidableEq

/-- Read a field of the request. -/
def Request.get (req : Request) : Field → Option Json
  | .id => req.id
  | .title => req.title
  | .description => req.description
  | .status => req.status
  | .priority => req.priority

/-- Write a field of the request (sanitizers write their result back). -/
def Request.set (req : Request) (f : Field) (v : Option Json) : Request :=
  match f with
  | .id => { req with id := v }
  | .title => { req with title := v }
  | .description => { req with description := v }
  | .status => { req with status := v }
  | .priority => { req with priority := v }

/-- The standard validators used by the chains. -/
inductive Validator where
  | notEmpty
  | isLength (max : Nat)
  | isIn (values : List String)
  | isInt (gt : Int)
deriving DecidableEq

/-- Whether a validator accepts a string. -/
def Validator.holds : Validator → String → Bool
  | .notEmpty, s => s.length != 0
  | .isLength max, s => countedLength s ≤ max
  | .isIn values, s => values.contains s
  | .isInt gt, s => matchesInt s.data && decide (gt < numberOf s.data)

/-- One item of a chain: the sanitizer `trim()`, or a validator with the text
of the `withMessage` that follows it. -/
inductive ChainItem where
  | trim
  | validate (v : Validator) (msg : String)
deriving DecidableEq

/-- The `optional` setting of a chain: not optional, `optional()` (skipped when
the value is `undefined`), or `optional({ checkFalsy: true })` (skipped when the
value is falsy). -/
inductive Optionality where
  | required
  | undefinedOnly
  | falsy
deriving DecidableEq

/-- Whether an optional chain skips a value. -/
def Optionality.skips : Optionality → Option Json → Bool
  | .required, _ => false
  | .undefinedOnly, v => v.isNone
  | .falsy, none => true
  | .falsy, some .null => true
  | .falsy, some (.str s) => s.length == 0

/-- A validation chain. -/
structure Chain where
  field : Field
  optional : Optionality
  stack : List ChainItem
deriving DecidableEq

/-- An error as reported by `validationResult(req).array()`. -/
structure ValidationError where
  location : Location
  path : String
  msg : String
  value : Option Json
deriving DecidableEq

/-- Run one item on the current value of the field: the new value and the
errors the item adds. -/
def runItem (c : Chain) (v : Option Json) : ChainItem → Option Json × List ValidationError
  | .trim => (some (.str (trim (toStr v))), [])
  | .validate val msg =>
    if val.holds (toStr v) then (v, [])
    else (v, [{ location := c.field.location, path := c.field.path, msg := msg, value := v }])

/-- Run the items of a chain in order; an item is skipped when the chain is
optional and the current value counts as missing. -/
def runItems (c : Chain) : List ChainItem → Option Json → Option Json × List ValidationError
  | [], v => (v, [])
  | item :: rest, v =>
    if c.optional.skips v then runItems c rest v
    else
      let (v1, e1) := runItem c v item
      let (v2, e2) := runItems c rest v1
      (v2, e1 ++ e2)

/-- Run a chain as a middleware: the field of the request is replaced by its
sanitized value and the errors are added to those already found. -/
def runChain (c : Chain) (st : Request × List ValidationError) : Request × List ValidationError :=
  let (v, es) := runItems c c.stack (st.1.get c.field)
  (st.1.set c.field v, st.2 ++ es)

/-- Run a sequence of chains, left to right. -/
def runChains (cs : List Chain) (req : Request) : Request × List ValidationError :=
  cs.foldl (fun st c => runChain c st) (req, [])

/-- The chain `body('title')`: required, trimmed, not empty, at most 255
characters. -/
def titleChain : Chain :=
  { field := .title, optional := .required,
    stack := [.trim, .validate .notEmpty "Title is required.",
              .validate (.isLength 255) "Title cannot exceed 255 characters."] }

/-- The chain `body('description')`: optional (falsy values are skipped),
trimmed, at most 5000 characters. -/
def descriptionChain : Chain :=
  { field := .description, optional := .falsy,
    stack := [.trim, .validate (.isLength 5000) "Description cannot exceed 5000 characters."] }

/-- The chain `body('status')`: optional, trimmed, one of the three values. -/
def statusChain : Chain :=
  { field := .status, optional := .undefinedOnly,
    stack := [.trim, .validate (.isIn ["Open", "In Progress", "Closed"]) "Invalid status value."] }

/-- The chain `body('priority')`: optional, trimmed, one of the three values. -/
def priorityChain : Chain :=
  { field := .priority, optional := .undefinedOnly,
    stack := [.trim, .validate (.isIn ["Low", "Medium", "High"]) "Invalid priority value."] }

/-- The chains of `validateIssueInput`, in the order of the source. -/
def validateIssueInput : List Chain :=
  [titleChain, descriptionChain, statusChain, priorityChain]

/-- The chain `param('id')`: an integer greater than 0. -/
def idChain : Chain :=
  { field := .id, optional := .required,
    stack := [.validate (.isInt 0) "ID must be a positive integer."] }

/-- The chain of `validateIdParam`. -/
def validateIdParam : List Chain :=
  [idChain]

/-! ## The store -/

/-- A row of the table `issues`. -/
structure Issue where
  id : Nat
  title : String
  description : Option String
  status : String
  priority : String
  created_at : Nat
  updated_at : Nat
deriving DecidableEq

/-- The table `issues`: its rows in insertion order and the next value of the
identifier sequence. -/
structure Store where
  rows : List Issue
  nextId : Nat
deriving DecidableEq

/-- An error object thrown in a handler: `err.status` and `err.message`. -/
structure Err where
  status : Option Nat
  message : String
deriving DecidableEq

/-- The statements the handlers send through `db.query(text, params)`; a
parameter is a text or `none` for SQL `NULL`. -/
inductive Query where
  | selectAll
  | selectById (id : Option String)
  | insert (title description status priority : Option String)
  | update (title description status priority id : Option String)
  | deleteById (id : Option String)
deriving DecidableEq

/-- What `db.query` resolves to: `rows` and `rowCount`. -/
structure QueryResult where
  rows : List Issue
  rowCount : Nat
deriving DecidableEq

/-- A query parameter as the database driver sends it: `undefined` and `null`
are sent as `NULL`. -/
def toParam : Option Json → Option String
  | none => none
  | some .null => none
  | some (.str s) => some s

/-- Integer input of the store: an optionally signed string of decimal digits;
any other text is refused. -/
def integerIn (s : String) : Option Int :=
  if matchesInt s.data then some (numberOf s.data) else none

/-- Modelled from the spec: the condition `WHERE id = $n` of the store (the
table schema and the `db` module are not among the sources).  `id` is an
integer column; the parameter is read as an integer, a comparison with `NULL`
selects no row, and a text that is not an integer fails the query.  The column
is taken to hold any integer: the width of its type is not in the sources. -/
def whereId : Option String → Except Err (Issue → Bool)
  | none => .ok (fun _ => false)
  | some s =>
    match integerIn s with
    | some z => .ok (fun r => decide ((r.id : Int) = z))
    | none => .error { status := none, message := "invalid input syntax for type integer" }

/-- Modelled from the spec: the order `ORDER BY created_at DESC` asks of two
rows (the store engine is not among the sources): the newer one comes first. -/
def newerFirst (a b : Issue) : Prop := b.created_at ≤ a.created_at

instance newerFirstDecidable : DecidableRel newerFirst :=
  fun a b => inferInstanceAs (Decidable (b.created_at ≤ a.created_at))

/-- Modelled from the spec: the rows as `ORDER BY created_at DESC` returns them
(the store engine is not among the sources; the statement names no second sort
key).  The specification has the issues ordered by `created_at` descending, ties
broken by insertion order: each row is inserted before the first row that is
not newer than it, which keeps rows of equal `created_at` in the order of the
table. -/
def orderByCreatedAtDesc (rows : List Issue) : List Issue :=
  rows.insertionSort newerFirst

/-- Modelled from the spec: `db.query` on the table `issues` (the table schema
and the `db` module are not among the sources).  The store assigns `id` from a
sequence and sets `created_at` and `updated_at` to the current time on insert;
`title`, `status` and `priority` are populated in every record, so a `NULL` for
one of them fails the statement; a failed statement leaves the table as it was.
`now` is the value of `NOW()`. -/
def dbQuery (now : Nat) (q : Query) (s : Store) : Except Err (QueryResult × Store) :=
  match q with
  | .selectAll =>
    let found := orderByCreatedAtDesc s.rows
    .ok ({ rows := found, rowCount := found.length }, s)
  | .selectById id =>
    match whereId id with
    | .error e => .error e
    | .ok p =>
      let found := s.rows.filter p
      .ok ({ rows := found, rowCount := found.length }, s)
  | .insert title description status priority =>
    match title, status, priority with
    | some t, some st, some pr =>
      let r : Issue := { id := s.nextId, title := t, description := description, status := st,
                         priority := pr, created_at := now, updated_at := now }
      .ok ({ rows := [r], rowCount := 1 }, { rows := s.rows ++ [r], nextId := s.nextId + 1 })
    | _, _, _ => .error { status := none, message := "null value violates not-null constraint" }
  | .update title description status priority id =>
    match whereId id with
    | .error e => .error e
    | .ok p =>
      if s.rows.any p then
        match title, status, priority with
        | some t, some st, some pr =>
          let upd : Issue → Issue := fun r =>
            { r with title := t, description := description, status := st, priority := pr,
                     updated_at := now }
          let changed := (s.rows.filter p).map upd
          .ok ({ rows := changed, rowCount := changed.length },
               { s with rows := s.rows.map (fun r => if p r then upd r else r) })
        | _, _, _ => .error { status := none, message := "null value violates not-null constraint" }
      else .ok ({ rows := [], rowCount := 0 }, s)
  | .deleteById id =>
    match whereId id with
    | .error e => .error e
    | .ok p =>
      let gone := s.rows.filter p
      .ok ({ rows := gone, rowCount := gone.length },
           { s with rows := s.rows.filter (fun r => !p r) })

/-! ## Responses and handlers -/

/-- The JSON bodies the server sends. -/
inductive ResBody where
  | empty
  | issue (r : Issue)
  | issues (rs : List Issue)
  | message (m : String)
  | deleted (m : String) (deletedIssue : Option Issue)
  | errors (es : List ValidationError)
  | error (m : String)
deriving DecidableEq

/-- An HTTP response: status code and body. -/
structure Response where
  status : Nat
  body : ResBody
deriving DecidableEq

/-- The result of serving one request: the response, the store afterwards and
the queries sent to the store, in order. -/
structure Outcome where
  response : Response
  store : Store
  queries : List Query
deriving DecidableEq

/-- The centralized error handler of `server.js`: `err.status || 500` and
`err.message || 'Internal Server Error'` in the envelope `{ error: { message } }`. -/
def errorHandler (err : Err) : Response :=
  let statusCode := match err.status with
    | some 0 => 500
    | some c => c
    | none => 500
  let message := if err.message.length = 0 then "Internal Server Error" else err.message
  { status := statusCode, body := .error message }

/-- `res.json(rows[0])`: the first row, or nothing when there is none. -/
def jsonRow : List Issue → ResBody
  | r :: _ => .issue r
  | [] => .empty

/-- Handler of `GET /api/issues`: all the issues, as the store orders them. -/
def listIssuesHandler (now : Nat) (_req : Request) (s : Store) : Outcome :=
  let q := Query.selectAll
  match dbQuery now q s with
  | .error e => { response := errorHandler e, store := s, queries := [q] }
  | .ok (res, s1) =>
    { response := { status := 200, body := .issues res.rows }, store := s1, queries := [q] }

/-- Handler of `GET /api/issues/:id`. -/
def getIssueHandler (now : Nat) (req : Request) (s : Store) : Outcome :=
  let q := Query.selectById (toParam req.id)
  match dbQuery now q s with
  | .error e => { response := errorHandler e, store := s, queries := [q] }
  | .ok (res, s1) =>
    if res.rows.length = 0 then
      { response := { status := 404, body := .message "Issue not found" }, store := s1, queries := [q] }
    else
      { response := { status := 200, body := jsonRow res.rows }, store := s1, queries := [q] }

/-- Handler of `POST /api/issues`: `status` and `priority` take their defaults
when the body does not have them. -/
def createIssueHandler (now : Nat) (req : Request) (s : Store) : Outcome :=
  let title := req.title
  let description := req.description
  let status := match req.status with
    | none => some (Json.str "Open")
    | some v => some v
  let priority := match req.priority with
    | none => some (Json.str "Medium")
    | some v => some v
  let q := Query.insert (toParam title) (toParam description) (toParam status) (toParam priority)
  match dbQuery now q s with
  | .error e => { response := errorHandler e, store := s, queries := [q] }
  | .ok (res, s1) =>
    { response := { status := 201, body := jsonRow res.rows }, store := s1, queries := [q] }

/-- The value `x !== undefined ? x : existing` of the update handler, as a
query parameter. -/
def mergeParam (x : Option Json) (existing : Option String) : Option String :=
  match x with
  | none => existing
  | some v => toParam (some v)

/-- Handler of `PUT /api/issues/:id`: look the issue up, answer 404 when it is
missing, otherwise write every column, keeping the existing value of a field
the body does not have. -/
def updateIssueHandler (now : Nat) (req : Request) (s : Store) : Outcome :=
  let q1 := Query.selectById (toParam req.id)
  match dbQuery now q1 s with
  | .error e => { response := errorHandler e, store := s, queries := [q1] }
  | .ok (existingIssueResult, s1) =>
    match existingIssueResult.rows with
    | [] =>
      { response := { status := 404, body := .message "Issue not found" }, store := s1, queries := [q1] }
    | existingIssue :: _ =>
      let newTitle := mergeParam req.title (some existingIssue.title)
      let newDescription := mergeParam req.description existingIssue.description
      let newStatus := mergeParam req.status (some existingIssue.status)
      let newPriority := mergeParam req.priority (some existingIssue.priority)
      let q2 := Query.update newTitle newDescription newStatus newPriority (toParam req.id)
      match dbQuery now q2 s1 with
      | .error e => { response := errorHandler e, store := s1, queries := [q1, q2] }
      | .ok (res, s2) =>
        { response := { status := 200, body := jsonRow res.rows }, store := s2, queries := [q1, q2] }

/-- Handler of `DELETE /api/issues/:id`. -/
def deleteIssueHandler (now : Nat) (req : Request) (s : Store) : Outcome :=
  let q := Query.deleteById (toParam req.id)
  match dbQuery now q s with
  | .error e => { response := errorHandler e, store := s, queries := [q] }
  | .ok (result, s1) =>
    if result.rowCount = 0 then
      { response := { status := 404, body := .message "Issue not found" }, store := s1, queries := [q] }
    else
      { response := { status := 200,
                      body := .deleted "Issue deleted successfully" result.rows.head? },
        store := s1, queries := [q] }

/-- The middleware `handleValidationErrors`: when the validation result is not
empty it answers 400 with `{ errors: errors.array() }` and does not call `next`;
otherwise it calls `next`, the rest of the route. -/
def handleValidationErrors (errors : List ValidationError) (s : Store) (next : Store → Outcome) :
    Outcome :=
  if !errors.isEmpty then
    { response := { status := 400, body := .errors errors }, store := s, queries := [] }
  else next s

/-- A route: the validation chains run in order, then `handleValidationErrors`,
then the handler, on the sanitized request. -/
def route (chains : List Chain) (handler : Nat → Request → Store → Outcome)
    (now : Nat) (req : Request) (s : Store) : Outcome :=
  let (req1, errors) := runChains chains req
  handleValidationErrors errors s (handler now req1)

/-- Route `GET /api/issues`: no validation precedes the handler. -/
def listIssues : Nat → Request → Store → Outcome :=
  listIssuesHandler

/-- Route `GET /api/issues/:id`. -/
def getIssue : Nat → Request → Store → Outcome :=
  route validateIdParam getIssueHandler

/-- Route `POST /api/issues`. -/
def createIssue : Nat → Request → Store → Outcome :=
  route validateIssueInput createIssueHandler

/-- Route `PUT /api/issues/:id`. -/
def updateIssue : Nat → Request → Store → Outcome :=
  route (validateIdParam ++ validateIssueInput) updateIssueHandler

/-- Route `DELETE /api/issues/:id`. -/
def deleteIssue : Nat → Request → Store → Outcome :=
  route validateIdParam deleteIssueHandler

/-- The five operations of the router. -/
inductive Op where
  | list
  | get
  | create
  | update
  | delete
deriving DecidableEq

/-- The router: the route that serves an operation. -/
def serve : Op → Nat → Request → Store → Outcome
  | .list => listIssues
  | .get => getIssue
  | .create => createIssue
  | .update => updateIssue
  | .delete => deleteIssue

/-- The store after a sequence of requests, each given with its operation and
the time at which it is served. -/
def serveAll : List (Op × Nat × Request) → Store → Store
  | [], s => s
  | (op, now, req) :: rest, s => serveAll rest (serve op now req s).store

/-- The JSON object of one validation error, as `errors.array()` of
express-validator 7 yields it: `type`, `value` (left out when `undefined`),
`msg`, `path` and `location`. -/
def ValidationError.toJson (e : ValidationError) : List (String × Json) :=
  [("type", Json.str "field")] ++
  (match e.value with
    | none => []
    | some v => [("value", v)]) ++
  [("msg", Json.str e.msg), ("path", Json.str e.path),
   ("location", Json.str (match e.location with
      | .body => "body"
      | .params => "params"))]

/-- The keys of the JSON object a response body is. -/
def ResBody.keys : ResBody → List String
  | .empty => []
  | .issue _ => ["id", "title", "description", "status", "priority", "created_at", "updated_at"]
  | .issues _ => []
  | .message _ => ["message"]
  | .deleted _ none => ["message"]
  | .deleted _ (some _) => ["message", "deletedIssue"]
  | .errors _ => ["errors"]
  | .error _ => ["error"]

/-! ## Validation results -/

/-- The value a chain leaves in the request for a field holding `v`. -/
def sanitized (c : Chain) (v : Option Json) : Option Json := (runItems c c.stack v).1

/-- The errors a chain records for a field holding `v`. -/
def errorsOf (c : Chain) (v : Option Json) : List ValidationError := (runItems c c.stack v).2

/-- The request after the body chains: every body field sanitized by its chain. -/
def sanitizedBody (req : Request) : Request :=
  { id := req.id,
    title := sanitized titleChain req.title,
    description := sanitized descriptionChain req.description,
    status := sanitized statusChain req.status,
    priority := sanitized priorityChain req.priority }

/-- The errors of the four body chains, in the order of the chains. -/
def bodyErrors (req : Request) : List ValidationError :=
  errorsOf titleChain req.title ++ errorsOf descriptionChain req.description ++
    errorsOf statusChain req.status ++ errorsOf priorityChain req.priority

/-- The messages of the errors reported for one field. -/
def messagesFor (path : String) (es : List ValidationError) : List String :=
  (es.filter (fun e => e.path == path)).map (fun e => e.msg)

/-- The error `validateIdParam` reports for the path parameter `i`. -/
def idError (i : String) : ValidationError :=
  { location := .params, path := "id", msg := "ID must be a positive integer.",
    value := some (.str i) }

/-- The error the title chain reports for a title that is empty once trimmed. -/
def titleRequiredError : ValidationError :=
  { location := .body, path := "title", msg := "Title is required.", value := some (.str "") }

/-! ## The rules as the specification words them -/

namespace Spec

/-- Specification: a text denotes an integer greater than 0 when it is an
optionally signed decimal numeral whose value is greater than 0. -/
def denotesPositiveInteger (s : String) : Bool :=
  match integerIn s with
  | some z => decide (0 < z)
  | none => false

/-- Specification: the field rules of the validation layer in the order title,
description, status, priority, each with its message and the payloads that
violate it. -/
def rules : List (String × (Request → Bool)) :=
  [ ("Title is required.", fun p => (trim (toStr p.title)).length == 0),
    ("Title cannot exceed 255 characters.", fun p => decide (255 < (trim (toStr p.title)).length)),
    ("Description cannot exceed 5000 characters.", fun p =>
      (trim (toStr p.description)).length != 0 &&
        decide (5000 < (trim (toStr p.description)).length)),
    ("Invalid status value.", fun p =>
      p.status.isSome && !(["Open", "In Progress", "Closed"].contains (trim (toStr p.status)))),
    ("Invalid priority value.", fun p =>
      p.priority.isSome && !(["Low", "Medium", "High"].contains (trim (toStr p.priority)))) ]

/-- Specification: the messages of all the rules a payload violates, in order. -/
def violations (p : Request) : List String :=
  (rules.filter (fun r => r.2 p)).map (fun r => r.1)

/-- Specification: the values of `status`. -/
def statusValues : List String := ["Open", "In Progress", "Closed"]

/-- Specification: the values of `priority`. -/
def priorityValues : List String := ["Low", "Medium", "High"]

/-- Specification: every stored issue has an enumerated status and priority. -/
def enumerated (s : Store) : Prop :=
  ∀ r ∈ s.rows, r.status ∈ statusValues ∧ r.priority ∈ priorityValues

/-- Specification: a text begins or ends with white space. -/
def surroundedBySpace (cs : List Char) : Bool :=
  (cs.head?.map isSpace).getD false || (cs.getLast?.map isSpace).getD false

/-- Specification: a stored title has 1 to 255 characters and no surrounding
white space. -/
def titleOk (t : String) : Prop :=
  1 ≤ t.length ∧ t.length ≤ 255 ∧ surroundedBySpace t.data = false

/-- Specification: every stored title is as `titleOk` says. -/
def titlesOk (s : Store) : Prop :=
  ∀ r ∈ s.rows, titleOk r.title

/-- Specification: the error body shape the specification gives, an element
with the keys `field` and `message`. -/
def hasFieldAndMessage (e : ValidationError) : Prop :=
  (e.toJson.lookup "field").isSome = true ∧ (e.toJson.lookup "message").isSome = true

/-- Specification: the store is one the store itself produced: identifiers come
from the sequence, so they are positive, below the next identifier, and no two
rows share one. -/
def wellFormed (s : Store) : Prop :=
  0 < s.nextId ∧ (∀ r ∈ s.rows, 0 < r.id ∧ r.id < s.nextId) ∧
    (s.rows.map (fun r => r.id)).Nodup

end Spec

/-! ## Example data -/

/-- A stored issue used in the examples. -/
def exampleIssue : Issue :=
  { id := 1, title := "Bug A", description := some "first", status := "Open",
    priority := "Medium", created_at := 5, updated_at := 5 }

/-- A store holding `exampleIssue` and one more issue. -/
def exampleStore : Store :=
  { rows := [exampleIssue,
             { id := 2, title := "Bug B", description := none, status := "In Progress",
               priority := "High", created_at := 6, updated_at := 7 }],
    nextId := 3 }

/-! ## Further definitions for the claims on the store -/

/-- The path text a client builds for an id: its decimal digits. -/
def idText (n : Nat) : String := Nat.repr n

/-- The record a valid Create inserts. -/
def createdIssue (now : Nat) (req : Request) (s : Store) : Issue :=
  { id := s.nextId,
    title := trim (toStr req.title),
    description := (match req.description with
      | some (.str d) => some (trim d)
      | _ => none),
    status := (match req.status with
      | none => "Open"
      | some v => trim (toStr (some v))),
    priority := (match req.priority with
      | none => "Medium"
      | some v => trim (toStr (some v))),
    created_at := now, updated_at := now }

/-! ## Further definitions for the claims on the error bodies -/

/-- The validation chains that precede the handler of each operation. -/
def chainsOf : Op → List Chain
  | .list => []
  | .get => validateIdParam
  | .create => validateIssueInput
  | .update => validateIdParam ++ validateIssueInput
  | .delete => validateIdParam

/-- The handler of each operation. -/
def handlerOf : Op → Nat → Request → Store → Outcome
  | .list => listIssuesHandler
  | .get => getIssueHandler
  | .create => createIssueHandler
  | .update => updateIssueHandler
  | .delete => deleteIssueHandler

/-- The fields and the texts of the rules of `validators.js`. -/
def ruleTexts : List (String × String) :=
  [ ("id", "ID must be a positive integer."),
    ("title", "Title is required."),
    ("title", "Title cannot exceed 255 characters."),
    ("description", "Description cannot exceed 5000 characters."),
    ("status", "Invalid status value."),
    ("priority", "Invalid priority value.") ]

/-- The first statement the handler of an operation sends to the store. -/
def firstQuery : Op → Request → Query
  | .list, _ => .selectAll
  | .get, req => .selectById (toParam req.id)
  | .create, req =>
    .insert (toParam req.title) (toParam req.description)
      (toParam (match req.status with
        | none => some (Json.str "Open")
        | some v => some v))
      (toParam (match req.priority with
        | none => some (Json.str "Medium")
        | some v => some v))
  | .update, req => .selectById (toParam req.id)
  | .delete, req => .deleteById (toParam req.id)

/-! ## Further definitions for the claim on the description in Update -/

/-- The record a valid Update writes over the existing record `r`: the fields
the body has, trimmed, over those of `r`, and the current time. -/
def updatedIssue (now : Nat) (req : Request) (r : Issue) : Issue :=
  { id := r.id,
    title := (match req.title with
      | none => r.title
      | some v => trim (toStr (some v))),
    description := (match req.description with
      | none => r.description
      | some .null => none
      | some (.str d) => some (trim d)),
    status := (match req.status with
      | none => r.status
      | some v => trim (toStr (some v))),
    priority := (match req.priority with
      | none => r.priority
      | some v => trim (toStr (some v))),
    created_at := r.created_at,
    updated_at := now }

/-! ## The rules with the lengths as `isLength` counts them -/

/-- The field rules as the validators apply them: those of `Spec.rules`, the
two lengths being the ones `isLength` measures, which leave the variation
selectors U+FE0E and U+FE0F out. -/
def rulesAsCounted : List (String × (Request → Bool)) :=
  [ ("Title is required.", fun p => (trim (toStr p.title)).length == 0),
    ("Title cannot exceed 255 characters.", fun p =>
      decide (255 < countedLength (trim (toStr p.title)))),
    ("Description cannot exceed 5000 characters.", fun p =>
      (trim (toStr p.description)).length != 0 &&
        decide (5000 < countedLength (trim (toStr p.description)))),
    ("Invalid status value.", fun p =>
      p.status.isSome && !(["Open", "In Progress", "Closed"].contains (trim (toStr p.status)))),
    ("Invalid priority value.", fun p =>
      p.priority.isSome && !(["Low", "Medium", "High"].contains (trim (toStr p.priority)))) ]

/-- The messages of all the rules of `rulesAsCounted` a payload violates, in
order. -/
def violationsAsCounted (p : Request) : List String :=
  (rulesAsCounted.filter (fun r => r.2 p)).map (fun r => r.1)

/-- A stored title as the title chain lets it through: not empty, at most 255
characters not counting the variation selectors U+FE0E and U+FE0F, and no
surrounding white space. -/
def titleOkAsCounted (t : String) : Prop :=
  1 ≤ t.length ∧ countedLength t ≤ 255 ∧ Spec.surroundedBySpace t.data = false

/-- Every stored title is as `titleOkAsCounted` says. -/
def titlesOkAsCounted (s : Store) : Prop :=
  ∀ r ∈ s.rows, titleOkAsCounted r.title

/-- A text of `k + 1` letters `c` followed by the variation selector `v`. -/
def lettersThenSelector (k : Nat) (c v : Char) : String :=
  ⟨List.replicate (k + 1) c ++ [v]⟩

/-- A title of 256 characters: 255 letters and the variation selector U+FE0F. -/
def longTitle : String := lettersThenSelector 254 'a' (Char.ofNat 0xFE0F)

/-- A description of 5001 characters: 5000 letters and the variation selector
U+FE0E. -/
def longDescription : String := lettersThenSelector 4999 'd' (Char.ofNat 0xFE0E)

/-! ## Lemmas on the chain runner -/


theorem toStr_str (s : String) : toStr (some (.str s)) = s := rfl

theorem runChain_eq (c : Chain) (req : Request) (es : List ValidationError) :
    runChain c (req, es) =
      (req.set c.field (runItems c c.stack (req.get c.field)).1,
       es ++ (runItems c c.stack (req.get c.field)).2) := rfl

theorem foldl_runChain (cs : List Chain) (req : Request) (es : List ValidationError) :
    cs.foldl (fun st c => runChain c st) (req, es) =
      ((runChains cs req).1, es ++ (runChains cs req).2) := by
  induction cs generalizing req es with
  | nil => simp [runChains]
  | cons c cs ih =>
    simp only [runChains, List.foldl_cons, runChain_eq]
    rw [ih, ih _ ([] ++ _)]
    simp

theorem runChains_cons (c : Chain) (cs : List Chain) (req : Request) :
    runChains (c :: cs) req =
      ((runChains cs (req.set c.field (runItems c c.stack (req.get c.field)).1)).1,
       (runItems c c.stack (req.get c.field)).2 ++
         (runChains cs (req.set c.field (runItems c c.stack (req.get c.field)).1)).2) := by
  simp only [runChains, List.foldl_cons, runChain_eq]
  rw [foldl_runChain]
  simp [runChains]

theorem runChains_nil (req : Request) : runChains [] req = (req, []) := rfl

theorem countedLength_le_length (s : String) : countedLength s ≤ s.length :=
  List.length_filter_le _ _

theorem runItems_title (v : Option Json) :
    runItems titleChain titleChain.stack v =
      (some (.str (trim (toStr v))),
        (if (trim (toStr v)).length = 0 then
          [{ location := .body, path := "title", msg := "Title is required.",
             value := some (.str (trim (toStr v))) }] else []) ++
        (if countedLength (trim (toStr v)) ≤ 255 then [] else
          [{ location := .body, path := "title", msg := "Title cannot exceed 255 characters.",
             value := some (.str (trim (toStr v))) }])) := by
  simp only [titleChain, runItems, runItem, Optionality.skips, Validator.holds, toStr_str,
    Field.location, Field.path]
  split_ifs <;> simp_all [toStr_str]

theorem runItems_description (v : Option Json) :
    runItems descriptionChain descriptionChain.stack v =
      if Optionality.falsy.skips v then (v, []) else
      (some (.str (trim (toStr v))),
        if countedLength (trim (toStr v)) ≤ 5000 then [] else
          [{ location := .body, path := "description",
             msg := "Description cannot exceed 5000 characters.",
             value := some (.str (trim (toStr v))) }]) := by
  simp only [descriptionChain, runItems, runItem, Validator.holds, Field.location, Field.path]
  by_cases h : Optionality.falsy.skips v = true
  · simp [h]
  · simp only [h, Bool.false_eq_true, if_false]
    by_cases h2 : Optionality.falsy.skips (some (Json.str (trim (toStr v)))) = true
    · have : (trim (toStr v)).length = 0 := by simpa [Optionality.skips] using h2
      have hc : countedLength (trim (toStr v)) ≤ 5000 := by
        have := countedLength_le_length (trim (toStr v))
        omega
      simp [h2, hc]
    · simp only [h2, Bool.false_eq_true, if_false, toStr_str]
      split_ifs <;> simp_all [toStr_str]

theorem runItems_enum (c : Chain) (values : List String) (msg : String)
    (hopt : c.optional = .undefinedOnly) (v : Option Json) :
    runItems c [.trim, .validate (.isIn values) msg] v =
      match v with
      | none => (none, [])
      | some w => (some (.str (trim (toStr (some w)))),
          if values.contains (trim (toStr (some w))) then [] else
            [{ location := c.field.location, path := c.field.path, msg := msg,
               value := some (.str (trim (toStr (some w)))) }]) := by
  cases v with
  | none => simp [runItems, hopt, Optionality.skips]
  | some w =>
    simp only [runItems, runItem, hopt, Optionality.skips, Validator.holds, toStr_str]
    split_ifs <;> simp_all [toStr_str]

theorem runItems_id (v : Option Json) :
    runItems idChain idChain.stack v =
      (v, if (Validator.isInt 0).holds (toStr v) then [] else
            [{ location := .params, path := "id", msg := "ID must be a positive integer.",
               value := v }]) := by
  simp only [idChain, runItems, runItem, Optionality.skips, Field.location, Field.path]
  split_ifs <;> simp_all

theorem sanitized_id (v : Option Json) : sanitized idChain v = v := by
  simp [sanitized, runItems_id]

theorem runChains_validateIssueInput (req : Request) :
    runChains validateIssueInput req = (sanitizedBody req, bodyErrors req) := by
  simp only [validateIssueInput, runChains_cons, runChains_nil]
  simp [sanitizedBody, bodyErrors, sanitized, errorsOf, Request.get, Request.set, titleChain,
    descriptionChain, statusChain, priorityChain]

theorem runChains_validateIdParam (req : Request) :
    runChains validateIdParam req = (req, errorsOf idChain req.id) := by
  simp only [validateIdParam, runChains_cons, runChains_nil]
  simp [errorsOf, Request.get, Request.set, idChain, runItems, runItem, Optionality.skips]
  split_ifs <;> simp

theorem runChains_update (req : Request) :
    runChains (validateIdParam ++ validateIssueInput) req =
      (sanitizedBody req, errorsOf idChain req.id ++ bodyErrors req) := by
  simp only [validateIdParam, validateIssueInput, List.cons_append, List.nil_append,
    runChains_cons, runChains_nil]
  simp [sanitizedBody, bodyErrors, sanitized, errorsOf, Request.get, Request.set, titleChain,
    descriptionChain, statusChain, priorityChain, idChain, runItems, runItem, Optionality.skips]
  split_ifs <;> simp

/-! ### Closed forms of the errors of each chain -/

theorem errorsOf_title (v : Option Json) :
    errorsOf titleChain v =
      (if (trim (toStr v)).length = 0 then
          [{ location := .body, path := "title", msg := "Title is required.",
             value := some (.str (trim (toStr v))) }] else []) ++
        (if countedLength (trim (toStr v)) ≤ 255 then [] else
          [{ location := .body, path := "title", msg := "Title cannot exceed 255 characters.",
             value := some (.str (trim (toStr v))) }]) := by
  simp [errorsOf, runItems_title]

theorem errorsOf_description (v : Option Json) :
    errorsOf descriptionChain v =
      if Optionality.falsy.skips v then [] else
        if countedLength (trim (toStr v)) ≤ 5000 then [] else
          [{ location := .body, path := "description",
             msg := "Description cannot exceed 5000 characters.",
             value := some (.str (trim (toStr v))) }] := by
  simp only [errorsOf, runItems_description]
  split_ifs <;> rfl

theorem errorsOf_status (v : Option Json) :
    errorsOf statusChain v =
      match v with
      | none => []
      | some w =>
        if ["Open", "In Progress", "Closed"].contains (trim (toStr (some w))) then [] else
          [{ location := .body, path := "status", msg := "Invalid status value.",
             value := some (.str (trim (toStr (some w)))) }] := by
  have h := runItems_enum statusChain ["Open", "In Progress", "Closed"] "Invalid status value." rfl v
  simp only [errorsOf]
  rw [show statusChain.stack = [.trim, .validate (.isIn ["Open", "In Progress", "Closed"])
    "Invalid status value."] from rfl, h]
  cases v <;> rfl

theorem errorsOf_priority (v : Option Json) :
    errorsOf priorityChain v =
      match v with
      | none => []
      | some w =>
        if ["Low", "Medium", "High"].contains (trim (toStr (some w))) then [] else
          [{ location := .body, path := "priority", msg := "Invalid priority value.",
             value := some (.str (trim (toStr (some w)))) }] := by
  have h := runItems_enum priorityChain ["Low", "Medium", "High"] "Invalid priority value." rfl v
  simp only [errorsOf]
  rw [show priorityChain.stack = [.trim, .validate (.isIn ["Low", "Medium", "High"])
    "Invalid priority value."] from rfl, h]
  cases v <;> rfl

theorem errorsOf_id (v : Option Json) :
    errorsOf idChain v =
      if (Validator.isInt 0).holds (toStr v) then [] else
        [{ location := .params, path := "id", msg := "ID must be a positive integer.",
           value := v }] := by
  simp [errorsOf, runItems_id]

/-! ## Lemmas on the routes -/

theorem handleValidationErrors_eq (errors : List ValidationError) (s : Store)
    (next : Store → Outcome) :
    handleValidationErrors errors s next =
      if errors.isEmpty then next s
      else { response := { status := 400, body := .errors errors }, store := s, queries := [] } := by
  unfold handleValidationErrors
  cases errors.isEmpty <;> rfl


theorem createIssue_eq (now : Nat) (req : Request) (s : Store) :
    createIssue now req s =
      if (bodyErrors req).isEmpty then createIssueHandler now (sanitizedBody req) s
      else { response := { status := 400, body := .errors (bodyErrors req) },
             store := s, queries := [] } := by
  simp only [createIssue, route, runChains_validateIssueInput, handleValidationErrors_eq]

theorem updateIssue_eq (now : Nat) (req : Request) (s : Store) :
    updateIssue now req s =
      if (errorsOf idChain req.id ++ bodyErrors req).isEmpty then
        updateIssueHandler now (sanitizedBody req) s
      else { response := { status := 400,
                           body := .errors (errorsOf idChain req.id ++ bodyErrors req) },
             store := s, queries := [] } := by
  simp only [updateIssue, route, runChains_update, handleValidationErrors_eq]

theorem getIssue_eq (now : Nat) (req : Request) (s : Store) :
    getIssue now req s =
      if (errorsOf idChain req.id).isEmpty then getIssueHandler now req s
      else { response := { status := 400, body := .errors (errorsOf idChain req.id) },
             store := s, queries := [] } := by
  simp only [getIssue, route, runChains_validateIdParam, handleValidationErrors_eq]

theorem deleteIssue_eq (now : Nat) (req : Request) (s : Store) :
    deleteIssue now req s =
      if (errorsOf idChain req.id).isEmpty then deleteIssueHandler now req s
      else { response := { status := 400, body := .errors (errorsOf idChain req.id) },
             store := s, queries := [] } := by
  simp only [deleteIssue, route, runChains_validateIdParam, handleValidationErrors_eq]

theorem trimChars_of_all_space (cs : List Char) (h : ∀ c ∈ cs, isSpace c = true) :
    trimChars cs = [] := by
  have : cs.dropWhile isSpace = [] := by
    rw [List.dropWhile_eq_nil_iff]; exact h
  simp [trimChars, this]

theorem trim_length_of_all_space (t : String) (h : ∀ c ∈ t.data, isSpace c = true) :
    (trim t).length = 0 := by
  simp [trim, trimChars_of_all_space t.data h]

theorem trim_eq_empty_of_length (t : String) (h : (trim t).length = 0) : trim t = "" := by
  have : (trim t).data = [] := List.length_eq_zero.mp h
  exact String.ext this

theorem isInt_holds_eq (i : String) :
    (Validator.isInt 0).holds i = Spec.denotesPositiveInteger i := by
  simp only [Validator.holds, Spec.denotesPositiveInteger, integerIn]
  by_cases h : matchesInt i.data = true
  · simp [h]
  · simp [h]

theorem errorsOf_id_str (i : String) :
    errorsOf idChain (some (.str i)) =
      if Spec.denotesPositiveInteger i then [] else [idError i] := by
  rw [errorsOf_id, toStr_str, isInt_holds_eq]
  rfl

theorem location_of_mem_bodyErrors (req : Request) (e : ValidationError)
    (h : e ∈ bodyErrors req) : e.location = .body := by
  simp only [bodyErrors, errorsOf_title, errorsOf_description, errorsOf_status, errorsOf_priority,
    List.mem_append] at h
  rcases h with ((h | h) | h) | h
  · rcases h with h | h <;> split_ifs at h <;> simp_all
  · split_ifs at h <;> simp_all
  · split at h
    · simp at h
    · split_ifs at h <;> simp_all
  · split at h
    · simp at h
    · split_ifs at h <;> simp_all

theorem getIssueHandler_body (now : Nat) (req : Request) (s : Store) (es : List ValidationError) :
    (getIssueHandler now req s).response.body ≠ .errors es := by
  unfold getIssueHandler
  simp only
  split
  · simp [errorHandler]
  · split
    · simp
    · simp only [jsonRow]; split <;> simp

theorem deleteIssueHandler_body (now : Nat) (req : Request) (s : Store)
    (es : List ValidationError) :
    (deleteIssueHandler now req s).response.body ≠ .errors es := by
  unfold deleteIssueHandler
  simp only
  split
  · simp [errorHandler]
  · split <;> simp

theorem updateIssueHandler_body (now : Nat) (req : Request) (s : Store)
    (es : List ValidationError) :
    (updateIssueHandler now req s).response.body ≠ .errors es := by
  unfold updateIssueHandler
  simp only
  split
  · simp [errorHandler]
  · split
    · simp
    · split
      · simp [errorHandler]
      · simp only [jsonRow]; split <;> simp

/-! ## The validation layer: claims C1 to C5 -/


theorem path_of_mem_runItems (c : Chain) (items : List ChainItem) (v : Option Json)
    (e : ValidationError) (h : e ∈ (runItems c items v).2) : e.path = c.field.path := by
  induction items generalizing v with
  | nil => simp [runItems] at h
  | cons item rest ih =>
    simp only [runItems] at h
    split_ifs at h
    · exact ih _ h
    · simp only [List.mem_append] at h
      rcases h with h | h
      · cases item with
        | trim => simp [runItem] at h
        | validate val msg =>
          simp only [runItem] at h
          split_ifs at h <;> simp_all
      · exact ih _ h

theorem messagesFor_append (p : String) (xs ys : List ValidationError) :
    messagesFor p (xs ++ ys) = messagesFor p xs ++ messagesFor p ys := by
  simp [messagesFor]

theorem messagesFor_errorsOf_ne (p : String) (c : Chain) (v : Option Json)
    (h : c.field.path ≠ p) : messagesFor p (errorsOf c v) = [] := by
  simp only [messagesFor, List.map_eq_nil_iff, List.filter_eq_nil_iff]
  intro e he
  have := path_of_mem_runItems c c.stack v e he
  simp [this, h]

theorem messagesFor_title (req : Request) :
    messagesFor "title" (runChains validateIssueInput req).2 =
      (if (trim (toStr req.title)).length = 0 then ["Title is required."]
       else if 255 < countedLength (trim (toStr req.title)) then
         ["Title cannot exceed 255 characters."]
       else []) := by
  simp only [runChains_validateIssueInput, bodyErrors, messagesFor_append]
  rw [messagesFor_errorsOf_ne "title" descriptionChain _ (by decide),
    messagesFor_errorsOf_ne "title" statusChain _ (by decide),
    messagesFor_errorsOf_ne "title" priorityChain _ (by decide)]
  simp only [errorsOf_title, messagesFor, List.append_nil]
  have hle := countedLength_le_length (trim (toStr req.title))
  split_ifs <;> simp_all
  omega

theorem dropWhile_replicate_space (m : Nat) (rest : List Char) :
    (List.replicate m ' ' ++ rest).dropWhile isSpace = rest.dropWhile isSpace := by
  induction m with
  | zero => simp
  | succ m ih =>
    rw [List.replicate_succ, List.cons_append, List.dropWhile_cons_of_pos (by decide), ih]

theorem dropWhile_replicate_tab (n : Nat) (rest : List Char) :
    (List.replicate n '\t' ++ rest).dropWhile isSpace = rest.dropWhile isSpace := by
  induction n with
  | zero => simp
  | succ n ih =>
    rw [List.replicate_succ, List.cons_append, List.dropWhile_cons_of_pos (by decide), ih]

theorem dropWhile_replicate_a (k : Nat) (rest : List Char) (hk : 0 < k) :
    (List.replicate k 'a' ++ rest).dropWhile isSpace = List.replicate k 'a' ++ rest := by
  obtain ⟨j, rfl⟩ : ∃ j, k = j + 1 := ⟨k - 1, by omega⟩
  rw [List.replicate_succ, List.cons_append, List.dropWhile_cons_of_neg (by decide)]

/-- `trim` removes the padding: blanks before and tabs after a run of letters. -/
theorem trimChars_padded (m k n : Nat) :
    trimChars (List.replicate m ' ' ++ List.replicate k 'a' ++ List.replicate n '\t') =
      List.replicate k 'a' := by
  rcases Nat.eq_zero_or_pos k with rfl | hk
  · have : (List.replicate m ' ' ++ List.replicate 0 'a' ++ List.replicate n '\t').dropWhile
        isSpace = [] := by
      rw [List.dropWhile_eq_nil_iff]
      intro c hc
      simp only [List.replicate_zero, List.append_nil, List.mem_append, List.mem_replicate] at hc
      rcases hc with ⟨-, rfl⟩ | ⟨-, rfl⟩ <;> decide
    rw [trimChars, this]
    rfl
  · rw [trimChars, List.append_assoc, dropWhile_replicate_space, dropWhile_replicate_a k _ hk,
      List.rdropWhile, List.reverse_append, List.reverse_replicate, List.reverse_replicate,
      dropWhile_replicate_tab, ← List.append_nil (List.replicate k 'a'),
      dropWhile_replicate_a k _ hk]
    simp

/-- C1: the code at the failing input.  `PUT /api/issues/1` with the body
`{status: "Closed"}` on a store that holds issue 1 is answered 400 with the
error "Title is required."; the issue is not updated and no query is sent. -/
theorem C1_update_with_status_only_is_rejected :
    updateIssue 9 { id := some (.str "1"), status := some (.str "Closed") } exampleStore =
      { response := { status := 400, body := .errors [titleRequiredError] },
        store := exampleStore, queries := [] } := by
  decide

theorem trimChars_eq_self (l : List Char)
    (hhead : ∀ c, l.head? = some c → isSpace c = false)
    (hlast : ∀ c, l.getLast? = some c → isSpace c = false) : trimChars l = l := by
  have h1 : l.dropWhile isSpace = l := by
    cases l with
    | nil => rfl
    | cons c t =>
      have := hhead c rfl
      simp [List.dropWhile_cons, this]
  rw [trimChars, h1, List.rdropWhile_eq_self_iff]
  intro hl
  have := hlast (l.getLast hl) (List.getLast?_eq_getLast _ hl)
  simp [this]

theorem lettersThenSelector_facts (k : Nat) (c v : Char) (hc : isSpace c = false)
    (hv : isSpace v = false) (hcs : isVariationSelector c = false)
    (hvs : isVariationSelector v = true) :
    trim (lettersThenSelector k c v) = lettersThenSelector k c v ∧
    (lettersThenSelector k c v).length = k + 2 ∧
    countedLength (lettersThenSelector k c v) = k + 1 := by
  refine ⟨?_, ?_, ?_⟩
  · have : trimChars (lettersThenSelector k c v).data = (lettersThenSelector k c v).data := by
      apply trimChars_eq_self
      · intro x hx
        simp [lettersThenSelector, List.replicate_succ] at hx
        rw [← hx]; exact hc
      · intro x hx
        simp [lettersThenSelector] at hx
        rw [← hx]; exact hv
    exact String.ext this
  · simp [lettersThenSelector, String.length]
  · have h1 : (List.replicate (k + 1) c).filter (fun x => !isVariationSelector x) =
        List.replicate (k + 1) c := by
      rw [List.filter_eq_self]
      intro x hx
      rw [List.eq_of_mem_replicate hx, hcs]
      rfl
    simp [countedLength, lettersThenSelector, List.filter_append, h1, hvs]

theorem longTitle_facts :
    trim longTitle = longTitle ∧ longTitle.length = 256 ∧ countedLength longTitle = 255 :=
  lettersThenSelector_facts 254 'a' (Char.ofNat 0xFE0F) (by decide) (by decide) (by decide)
    (by decide)

theorem longDescription_facts :
    trim longDescription = longDescription ∧ longDescription.length = 5001 ∧
      countedLength longDescription = 5000 :=
  lettersThenSelector_facts 4999 'd' (Char.ofNat 0xFE0E) (by decide) (by decide) (by decide)
    (by decide)

theorem countedLength_letters (k : Nat) :
    countedLength ⟨List.replicate k 'a'⟩ = k := by
  have h1 : (List.replicate k 'a').filter (fun x => !isVariationSelector x) =
      List.replicate k 'a' := by
    rw [List.filter_eq_self]
    intro x hx
    rw [List.eq_of_mem_replicate hx]
    decide
  simp [countedLength, h1]

/-- C2, the claim as stated fails: the title of 255 letters `a` followed by the
variation selector U+FE0F is its own trimmed form and has 256 characters, more
than 255, and validation reports no title error for it. -/
theorem C2_title_of_256_characters_is_accepted :
    trim (toStr (some (.str longTitle))) = longTitle ∧
    (trim (toStr (some (.str longTitle)))).length = 256 ∧
    messagesFor "title"
      (runChains validateIssueInput { title := some (.str longTitle) }).2 = [] := by
  obtain ⟨h1, h2, h3⟩ := longTitle_facts
  refine ⟨by rw [toStr_str, h1], by rw [toStr_str, h1, h2], ?_⟩
  rw [messagesFor_title]
  simp only [toStr_str, h1, h2, h3]
  decide

/-- C2 as amended: for every payload the title errors of `validateIssueInput`
are exactly "Title is required." when the title is absent or empty once trimmed,
exactly "Title cannot exceed 255 characters." when the trimmed title has more
than 255 characters not counting the variation selectors U+FE0E and U+FE0F, and
none otherwise; a title of `k` letters between any number of blanks and tabs is
judged on `k` alone, so 255 letters pass and 256 do not, whatever the padding,
and a variation selector after `k + 1` letters leaves the count at `k + 1`. -/
theorem C2_title_rule (req : Request) :
    messagesFor "title" (runChains validateIssueInput req).2 =
      (if (trim (toStr req.title)).length = 0 then ["Title is required."]
       else if 255 < countedLength (trim (toStr req.title)) then
         ["Title cannot exceed 255 characters."]
       else []) ∧
    messagesFor "title" (runChains validateIssueInput { req with title := none }).2 =
      ["Title is required."] ∧
    (∀ m k n : Nat,
      messagesFor "title" (runChains validateIssueInput
          { req with title := some (.str ⟨List.replicate m ' ' ++ List.replicate k 'a' ++
              List.replicate n '\t'⟩) }).2 =
        (if k = 0 then ["Title is required."]
         else if 255 < k then ["Title cannot exceed 255 characters."]
         else [])) ∧
    (∀ k : Nat,
      messagesFor "title" (runChains validateIssueInput
          { req with title := some (.str (lettersThenSelector k 'a' (Char.ofNat 0xFE0F))) }).2 =
        (if 255 < k + 1 then ["Title cannot exceed 255 characters."] else [])) := by
  refine ⟨messagesFor_title req, ?_, ?_, ?_⟩
  · rw [messagesFor_title]
    rfl
  · intro m k n
    rw [messagesFor_title]
    simp only [toStr_str, trim, trimChars_padded, countedLength_letters, String.length,
      List.length_replicate]
  · intro k
    obtain ⟨h1, h2, h3⟩ := lettersThenSelector_facts k 'a' (Char.ofNat 0xFE0F) (by decide)
      (by decide) (by decide) (by decide)
    rw [messagesFor_title]
    simp only [toStr_str, h1, h2, h3]
    simp

theorem titleRequiredError_mem (req : Request) (h : (trim (toStr req.title)).length = 0) :
    titleRequiredError ∈ bodyErrors req := by
  have ht : trim (toStr req.title) = "" := trim_eq_empty_of_length _ h
  simp only [bodyErrors, errorsOf_title, List.mem_append]
  left; left; left; left
  simp [ht, titleRequiredError]

/-- C3: for every store, every time and every request whose title is empty or
consists of white space only, Create and Update (whatever the id) answer 400
with errors that contain the title-required error, the store is left as it was
and no query is sent to it. -/
theorem C3_blank_title_is_rejected_without_write (now : Nat) (req : Request) (s : Store)
    (hblank : ∀ c ∈ (toStr req.title).data, isSpace c = true) :
    (∃ es, titleRequiredError ∈ es ∧
      createIssue now req s =
        { response := { status := 400, body := .errors es }, store := s, queries := [] }) ∧
    (∃ es, titleRequiredError ∈ es ∧
      updateIssue now req s =
        { response := { status := 400, body := .errors es }, store := s, queries := [] }) := by
  have hlen := trim_length_of_all_space _ hblank
  have hmem := titleRequiredError_mem req hlen
  constructor
  · refine ⟨bodyErrors req, hmem, ?_⟩
    rw [createIssue_eq]
    have : (bodyErrors req).isEmpty = false := by
      cases hb : bodyErrors req with
      | nil => rw [hb] at hmem; simp at hmem
      | cons _ _ => rfl
    simp [this]
  · refine ⟨errorsOf idChain req.id ++ bodyErrors req, List.mem_append_right _ hmem, ?_⟩
    rw [updateIssue_eq]
    have : (errorsOf idChain req.id ++ bodyErrors req).isEmpty = false := by
      cases hb : bodyErrors req with
      | nil => rw [hb] at hmem; simp at hmem
      | cons _ _ => simp
    simp [this]

/-- Witness of C3: a title of blanks and a tab, on the example store. -/
theorem C3_blank_title_is_rejected_without_write_witness :
    (∃ es, titleRequiredError ∈ es ∧
      createIssue 9 { title := some (.str "  \t ") } exampleStore =
        { response := { status := 400, body := .errors es }, store := exampleStore,
          queries := [] }) ∧
    (∃ es, titleRequiredError ∈ es ∧
      updateIssue 9 { title := some (.str "  \t ") } exampleStore =
        { response := { status := 400, body := .errors es }, store := exampleStore,
          queries := [] }) :=
  C3_blank_title_is_rejected_without_write 9 { title := some (.str "  \t ") } exampleStore
    (by decide)

theorem idError_not_mem_bodyErrors (i : String) (req : Request) :
    idError i ∉ bodyErrors req := by
  intro h
  have := location_of_mem_bodyErrors req _ h
  simp [idError] at this

theorem id_route_spec (op handler : Nat → Request → Store → Outcome)
    (hop : ∀ now req s, op now req s =
      if (errorsOf idChain req.id).isEmpty then handler now req s
      else { response := { status := 400, body := .errors (errorsOf idChain req.id) },
             store := s, queries := [] })
    (hbody : ∀ now req s es, (handler now req s).response.body ≠ .errors es)
    (now : Nat) (i : String) (req : Request) (s : Store) :
    ((∃ es, (op now { req with id := some (.str i) } s).response =
          { status := 400, body := .errors es } ∧ idError i ∈ es)
        ↔ Spec.denotesPositiveInteger i = false) ∧
    (Spec.denotesPositiveInteger i = true ∨
      ((op now { req with id := some (.str i) } s).queries = [] ∧
       (op now { req with id := some (.str i) } s).store = s)) := by
  rw [hop]
  simp only [errorsOf_id_str]
  cases hv : Spec.denotesPositiveInteger i with
  | true =>
    simp only [if_true, List.isEmpty_nil, Bool.true_eq_false, iff_false, not_exists, not_and,
      true_or, and_true]
    intro es hes
    exact absurd (congrArg Response.body hes) (hbody _ _ _ es)
  | false =>
    simp [idError]

/-- C4: for every path parameter `i`, every store and each of Get, Update and
Delete: the answer is 400 with the error "ID must be a positive integer." if
and only if `i` does not denote an integer greater than 0; and when it does
not, no query is sent and the store is unchanged.  The texts "0", "-3", "1.5"
and "abc" do not denote one, "7" does. -/
theorem C4_id_must_be_a_positive_integer (now : Nat) (i : String) (req : Request) (s : Store) :
    (∀ op ∈ [getIssue, updateIssue, deleteIssue],
      ((∃ es, (op now { req with id := some (.str i) } s).response =
            { status := 400, body := .errors es } ∧ idError i ∈ es)
          ↔ Spec.denotesPositiveInteger i = false) ∧
      (Spec.denotesPositiveInteger i = true ∨
        ((op now { req with id := some (.str i) } s).queries = [] ∧
         (op now { req with id := some (.str i) } s).store = s))) ∧
    Spec.denotesPositiveInteger "0" = false ∧ Spec.denotesPositiveInteger "-3" = false ∧
    Spec.denotesPositiveInteger "1.5" = false ∧ Spec.denotesPositiveInteger "abc" = false ∧
    Spec.denotesPositiveInteger "7" = true := by
  refine ⟨?_, by decide, by decide, by decide, by decide, by decide⟩
  intro op hop
  simp only [List.mem_cons, List.mem_singleton, List.not_mem_nil, or_false] at hop
  rcases hop with rfl | rfl | rfl
  · exact id_route_spec getIssue getIssueHandler getIssue_eq getIssueHandler_body now i req s
  · rw [updateIssue_eq]
    simp only [errorsOf_id_str]
    cases hv : Spec.denotesPositiveInteger i with
    | true =>
      simp only [if_true, List.nil_append, Bool.true_eq_false, iff_false, not_exists, not_and,
        true_or, and_true]
      intro es hes
      split_ifs at hes
      · exact absurd (congrArg Response.body hes) (updateIssueHandler_body _ _ _ es)
      · simp only [Response.mk.injEq, ResBody.errors.injEq, true_and] at hes
        rw [← hes]
        exact idError_not_mem_bodyErrors i _
    | false =>
      simp [idError]
  · exact id_route_spec deleteIssue deleteIssueHandler deleteIssue_eq deleteIssueHandler_body
      now i req s

theorem falsy_skips_iff (v : Option Json) :
    Optionality.falsy.skips v = true ↔ (toStr v).length = 0 := by
  rcases v with _ | _ | s <;> simp [Optionality.skips, toStr]

theorem trim_length_of_length_zero (t : String) (h : t.length = 0) : (trim t).length = 0 := by
  apply trim_length_of_all_space
  have : t.data = [] := List.length_eq_zero.mp h
  simp [this]

theorem violations_cons (p : Request) (m : String) (c : Request → Bool)
    (rest : List (String × (Request → Bool))) :
    (((m, c) :: rest).filter (fun r => r.2 p)).map (fun r => r.1) =
      (if c p then [m] else []) ++ (rest.filter (fun r => r.2 p)).map (fun r => r.1) := by
  by_cases h : c p = true <;> simp [List.filter_cons, h]

theorem map_msg_title (v : Option Json) :
    (errorsOf titleChain v).map (fun e => e.msg) =
      (if ((trim (toStr v)).length == 0) = true then ["Title is required."] else []) ++
      (if decide (255 < countedLength (trim (toStr v))) = true then
        ["Title cannot exceed 255 characters."] else []) := by
  rw [errorsOf_title]
  have hle := countedLength_le_length (trim (toStr v))
  split_ifs <;> simp_all
  omega

theorem map_msg_description (v : Option Json) :
    (errorsOf descriptionChain v).map (fun e => e.msg) =
      (if ((trim (toStr v)).length != 0 &&
          decide (5000 < countedLength (trim (toStr v)))) = true then
        ["Description cannot exceed 5000 characters."] else []) := by
  rw [errorsOf_description]
  have hd : Optionality.falsy.skips v = true → (trim (toStr v)).length = 0 := fun h =>
    trim_length_of_length_zero _ ((falsy_skips_iff _).mp h)
  have hle := countedLength_le_length (trim (toStr v))
  split_ifs <;> simp_all
  omega

theorem map_msg_status (v : Option Json) :
    (errorsOf statusChain v).map (fun e => e.msg) =
      (if (v.isSome && !(["Open", "In Progress", "Closed"].contains (trim (toStr v)))) = true
        then ["Invalid status value."] else []) := by
  rw [errorsOf_status]
  cases v with
  | none => simp
  | some w => simp only [Option.isSome_some, Bool.true_and]; split_ifs <;> simp_all

theorem map_msg_priority (v : Option Json) :
    (errorsOf priorityChain v).map (fun e => e.msg) =
      (if (v.isSome && !(["Low", "Medium", "High"].contains (trim (toStr v)))) = true
        then ["Invalid priority value."] else []) := by
  rw [errorsOf_priority]
  cases v with
  | none => simp
  | some w => simp only [Option.isSome_some, Bool.true_and]; split_ifs <;> simp_all

theorem map_msg_bodyErrors (req : Request) :
    (bodyErrors req).map (fun e => e.msg) = violationsAsCounted req := by
  simp only [bodyErrors, violationsAsCounted, rulesAsCounted, List.map_append, violations_cons,
    map_msg_title, map_msg_description, map_msg_status, map_msg_priority, List.filter_nil,
    List.map_nil, List.append_nil, List.append_assoc]

/-- C5, the claim as stated fails: the payload with the title of 255 letters
and the variation selector U+FE0F and the status "Done" violates two rules as
the specification words them, the title having 256 characters, and validation
reports the status error alone. -/
theorem C5_title_of_256_characters_gets_no_error :
    (runChains validateIssueInput
        { title := some (.str longTitle), status := some (.str "Done") }).2.map
      (fun e => e.msg) = ["Invalid status value."] ∧
    Spec.violations { title := some (.str longTitle), status := some (.str "Done") } =
      ["Title cannot exceed 255 characters.", "Invalid status value."] := by
  obtain ⟨h1, h2, h3⟩ := longTitle_facts
  constructor
  · rw [runChains_validateIssueInput]
    simp only [map_msg_bodyErrors, violationsAsCounted, rulesAsCounted, violations_cons,
      toStr_str, h1, h2, h3, List.filter_nil, List.map_nil]
    decide
  · simp only [Spec.violations, Spec.rules, violations_cons, toStr_str, h1, h2,
      List.filter_nil, List.map_nil]
    decide

/-- C5 as amended: validation collects every violation.  For every payload the
messages of the errors of `validateIssueInput` are the messages of all the rules
the payload violates, the two length rules counting the characters of the
trimmed text other than the variation selectors U+FE0E and U+FE0F, in the order
title, description, status, priority; a white-space title
with status "Done" and priority "Urgent" yields the three errors of the claim in
that order; Create answers 400 with all of them; and Update reports the error of
an invalid id before the body errors, in the same answer, as on the id "abc" with
that payload. -/
theorem C5_validation_is_exhaustive (now : Nat) (req : Request) (s : Store) :
    (runChains validateIssueInput req).2.map (fun e => e.msg) = violationsAsCounted req ∧
    (runChains validateIssueInput
        { title := some (.str "   "), status := some (.str "Done"),
          priority := some (.str "Urgent") }).2.map (fun e => e.msg) =
      ["Title is required.", "Invalid status value.", "Invalid priority value."] ∧
    (runChains (validateIdParam ++ validateIssueInput) req).2 =
      (runChains validateIdParam req).2 ++ (runChains validateIssueInput req).2 ∧
    createIssue now req s =
      (if ((runChains validateIssueInput req).2).isEmpty then
        createIssueHandler now (runChains validateIssueInput req).1 s
       else { response := { status := 400, body := .errors ((runChains validateIssueInput req).2) },
              store := s, queries := [] }) ∧
    updateIssue now req s =
      (if ((runChains validateIdParam req).2 ++ (runChains validateIssueInput req).2).isEmpty then
        updateIssueHandler now (runChains validateIssueInput req).1 s
       else { response := { status := 400,
                            body := .errors ((runChains validateIdParam req).2 ++
                              (runChains validateIssueInput req).2) },
              store := s, queries := [] }) ∧
    (updateIssue 9
        { id := some (.str "abc"), title := some (.str "   "), status := some (.str "Done"),
          priority := some (.str "Urgent") } exampleStore).response =
      { status := 400,
        body := .errors
          [ idError "abc", titleRequiredError,
            { location := .body, path := "status", msg := "Invalid status value.",
              value := some (.str "Done") },
            { location := .body, path := "priority", msg := "Invalid priority value.",
              value := some (.str "Urgent") } ] } := by
  refine ⟨?_, by decide, ?_, ?_, ?_, by decide⟩
  · rw [runChains_validateIssueInput]; exact map_msg_bodyErrors req
  · rw [runChains_update, runChains_validateIdParam, runChains_validateIssueInput]
  · rw [createIssue_eq, runChains_validateIssueInput]
  · rw [updateIssue_eq, runChains_validateIdParam, runChains_validateIssueInput]

/-! ## The Issue API on the store: claims C6 to C10 -/


theorem integerIn_eq_some (i : String) (z : Int) (h : integerIn i = some z) :
    matchesInt i.data = true ∧ numberOf i.data = z := by
  simp only [integerIn] at h
  split_ifs at h with hm
  exact ⟨hm, by simpa using h⟩

theorem errorsOf_id_valid (i : String) (n : Nat) (hi : integerIn i = some (n : Int))
    (hpos : 0 < n) : errorsOf idChain (some (.str i)) = [] := by
  rw [errorsOf_id_str]
  have : Spec.denotesPositiveInteger i = true := by
    simp [Spec.denotesPositiveInteger, hi, hpos]
  simp [this]

theorem whereId_valid (i : String) (n : Nat) (hi : integerIn i = some (n : Int)) :
    whereId (some i) = .ok (fun r => decide (r.id = n)) := by
  simp only [whereId, hi]
  congr 1
  funext r
  simp

theorem filter_id_eq_nil (rows : List Issue) (n : Nat) (h : ∀ r ∈ rows, r.id ≠ n) :
    rows.filter (fun r => decide (r.id = n)) = [] := by
  simp only [List.filter_eq_nil_iff, decide_eq_true_eq]
  exact h

theorem filter_id_ne_self (rows : List Issue) (n : Nat) (h : ∀ r ∈ rows, r.id ≠ n) :
    rows.filter (fun r => !decide (r.id = n)) = rows := by
  simp only [List.filter_eq_self, Bool.not_eq_eq_eq_not, Bool.not_true, decide_eq_false_iff_not]
  exact h

theorem eq_of_id_eq (rows : List Issue) (hnodup : (rows.map (fun r => r.id)).Nodup)
    (r x : Issue) (hr : r ∈ rows) (hx : x ∈ rows) (h : x.id = r.id) : x = r :=
  List.inj_on_of_nodup_map hnodup hx hr h

theorem filter_id_eq_singleton (rows : List Issue)
    (hnodup : (rows.map (fun r => r.id)).Nodup) (r : Issue) (hr : r ∈ rows) :
    rows.filter (fun x => decide (x.id = r.id)) = [r] := by
  induction rows with
  | nil => simp at hr
  | cons a rest ih =>
    simp only [List.map_cons, List.nodup_cons, List.mem_map, not_exists, not_and] at hnodup
    rcases List.mem_cons.mp hr with rfl | hmem
    · have : rest.filter (fun x => decide (x.id = r.id)) = [] := by
        simp only [List.filter_eq_nil_iff, decide_eq_true_eq]
        intro x hx hxe
        exact hnodup.1 x hx hxe
      simp [List.filter_cons, this]
    · have hne : a.id ≠ r.id := fun h => hnodup.1 r hmem h.symm
      simp [List.filter_cons, hne, ih hnodup.2 hmem]

theorem filter_id_ne_erase (rows : List Issue)
    (hnodup : (rows.map (fun r => r.id)).Nodup) (r : Issue) (hr : r ∈ rows) :
    rows.filter (fun x => !decide (x.id = r.id)) = rows.erase r := by
  induction rows with
  | nil => simp at hr
  | cons a rest ih =>
    simp only [List.map_cons, List.nodup_cons, List.mem_map, not_exists, not_and] at hnodup
    rcases List.mem_cons.mp hr with rfl | hmem
    · have : rest.filter (fun x => !decide (x.id = r.id)) = rest := by
        simp only [List.filter_eq_self, Bool.not_eq_eq_eq_not, Bool.not_true,
          decide_eq_false_iff_not]
        intro x hx hxe
        exact hnodup.1 x hx hxe
      simp [List.filter_cons, this]
    · have hne : a.id ≠ r.id := fun h => hnodup.1 r hmem h.symm
      have hne2 : a ≠ r := fun h => hne (by rw [h])
      simp [List.filter_cons, hne, ih hnodup.2 hmem, List.erase_cons_tail, hne2]

/-! ### What a valid body is sanitized to -/

theorem bodyErrors_eq_nil (req : Request) (h : bodyErrors req = []) :
    errorsOf titleChain req.title = [] ∧ errorsOf descriptionChain req.description = [] ∧
    errorsOf statusChain req.status = [] ∧ errorsOf priorityChain req.priority = [] := by
  simp only [bodyErrors, List.append_eq_nil] at h
  exact ⟨h.1.1.1, h.1.1.2, h.1.2, h.2⟩

theorem sanitized_title (v : Option Json) :
    sanitized titleChain v = some (.str (trim (toStr v))) := by
  simp [sanitized, runItems_title]

theorem title_valid (v : Option Json) (h : errorsOf titleChain v = []) :
    (trim (toStr v)).length ≠ 0 ∧ countedLength (trim (toStr v)) ≤ 255 := by
  rw [errorsOf_title] at h
  simp only [List.append_eq_nil] at h
  obtain ⟨h1, h2⟩ := h
  constructor
  · intro h0; simp [h0] at h1
  · by_contra h0; simp [h0] at h2

theorem title_present (v : Option Json) (h : errorsOf titleChain v = []) : v ≠ none := by
  rintro rfl
  exact (title_valid none h).1 (by decide)

theorem trim_of_length_zero (d : String) (h : d.length = 0) : trim d = d := by
  have hd : d.data = [] := List.length_eq_zero.mp h
  have : d = "" := String.ext hd
  subst this
  rfl

theorem toParam_sanitized_description (v : Option Json) :
    toParam (sanitized descriptionChain v) =
      match v with
      | some (.str d) => some (trim d)
      | _ => none := by
  simp only [sanitized, runItems_description]
  rcases v with _ | _ | d
  · rfl
  · rfl
  · by_cases h : d.length = 0
    · simp [Optionality.skips, h, toParam, trim_of_length_zero d h]
    · simp [Optionality.skips, h, toParam, toStr]

theorem sanitized_enum (c : Chain) (values : List String) (msg : String)
    (hopt : c.optional = .undefinedOnly)
    (hstack : c.stack = [.trim, .validate (.isIn values) msg]) (v : Option Json) :
    sanitized c v = match v with
      | none => none
      | some w => some (.str (trim (toStr (some w)))) := by
  simp only [sanitized, hstack, runItems_enum c values msg hopt v]
  cases v <;> rfl

theorem sanitized_status (v : Option Json) :
    sanitized statusChain v = match v with
      | none => none
      | some w => some (.str (trim (toStr (some w)))) :=
  sanitized_enum statusChain _ _ rfl rfl v

theorem sanitized_priority (v : Option Json) :
    sanitized priorityChain v = match v with
      | none => none
      | some w => some (.str (trim (toStr (some w)))) :=
  sanitized_enum priorityChain _ _ rfl rfl v

/-- C6: for every payload that passes validation, Create answers 201 with the
new record and appends exactly that record to the store: its title is the
trimmed title of the payload, its description the trimmed description (`NULL`
when the payload has none or has `null`), its status the (trimmed) status of the
payload or "Open" when the payload has none, its priority the (trimmed) priority
or "Medium" when the payload has none; the store assigns the id and both
timestamps.  `Create({title: "Bug A"})` yields status "Open" and priority
"Medium". -/
theorem C6_create_inserts_one_record_with_defaults (now : Nat) (req : Request) (s : Store)
    (hvalid : (runChains validateIssueInput req).2 = []) :
    (let r : Issue :=
      { id := s.nextId,
        title := trim (toStr req.title),
        description := (match req.description with
          | some (.str d) => some (trim d)
          | _ => none),
        status := (match req.status with
          | none => "Open"
          | some v => trim (toStr (some v))),
        priority := (match req.priority with
          | none => "Medium"
          | some v => trim (toStr (some v))),
        created_at := now, updated_at := now }
    createIssue now req s =
      { response := { status := 201, body := .issue r },
        store := { rows := s.rows ++ [r], nextId := s.nextId + 1 },
        queries := [.insert (some r.title) r.description (some r.status) (some r.priority)] }) ∧
    (createIssue 9 { title := some (.str "Bug A") } exampleStore).response =
      { status := 201,
        body := .issue { id := 3, title := "Bug A", description := none, status := "Open",
                         priority := "Medium", created_at := 9, updated_at := 9 } } := by
  refine ⟨?_, by decide⟩
  rw [runChains_validateIssueInput] at hvalid
  simp only at hvalid
  rw [createIssue_eq, hvalid]
  simp only [List.isEmpty_nil, if_true, createIssueHandler, sanitizedBody, sanitized_title,
    sanitized_status, sanitized_priority, toParam_sanitized_description]
  rcases hs : req.status with _ | ws <;> rcases hp : req.priority with _ | wp <;>
    simp [toParam, dbQuery, jsonRow, toStr]

/-- Witness of C6: a payload with a padded title and an explicit priority. -/
theorem C6_create_inserts_one_record_with_defaults_witness :
    createIssue 9 { title := some (.str " Crash "), priority := some (.str "High") }
        exampleStore =
      { response := { status := 201,
                      body := .issue { id := 3, title := "Crash", description := none,
                                       status := "Open", priority := "High", created_at := 9,
                                       updated_at := 9 } },
        store := { rows := exampleStore.rows ++
                     [{ id := 3, title := "Crash", description := none, status := "Open",
                        priority := "High", created_at := 9, updated_at := 9 }],
                   nextId := 4 },
        queries := [.insert (some "Crash") none (some "Open") (some "High")] } :=
  (C6_create_inserts_one_record_with_defaults 9
    { title := some (.str " Crash "), priority := some (.str "High") } exampleStore
    (by decide)).1

/-! ### The handlers on a valid id -/

theorem dbQuery_selectById (now : Nat) (i : String) (n : Nat)
    (hi : integerIn i = some (n : Int)) (s : Store) :
    dbQuery now (.selectById (some i)) s =
      .ok ({ rows := s.rows.filter (fun r => decide (r.id = n)),
             rowCount := (s.rows.filter (fun r => decide (r.id = n))).length }, s) := by
  simp [dbQuery, whereId_valid i n hi]

theorem dbQuery_deleteById (now : Nat) (i : String) (n : Nat)
    (hi : integerIn i = some (n : Int)) (s : Store) :
    dbQuery now (.deleteById (some i)) s =
      .ok ({ rows := s.rows.filter (fun r => decide (r.id = n)),
             rowCount := (s.rows.filter (fun r => decide (r.id = n))).length },
           { s with rows := s.rows.filter (fun r => !decide (r.id = n)) }) := by
  simp [dbQuery, whereId_valid i n hi]

theorem getIssue_valid (now : Nat) (req : Request) (s : Store) (i : String) (n : Nat)
    (hreq : req.id = some (.str i)) (hi : integerIn i = some (n : Int)) (hpos : 0 < n) :
    getIssue now req s =
      if (s.rows.filter (fun r => decide (r.id = n))).length = 0 then
        { response := { status := 404, body := .message "Issue not found" }, store := s,
          queries := [.selectById (some i)] }
      else
        { response := { status := 200,
                        body := jsonRow (s.rows.filter (fun r => decide (r.id = n))) },
          store := s, queries := [.selectById (some i)] } := by
  rw [getIssue_eq, hreq, errorsOf_id_valid i n hi hpos]
  simp only [List.isEmpty_nil, if_true, getIssueHandler, hreq, toParam,
    dbQuery_selectById now i n hi]

theorem deleteIssue_valid (now : Nat) (req : Request) (s : Store) (i : String) (n : Nat)
    (hreq : req.id = some (.str i)) (hi : integerIn i = some (n : Int)) (hpos : 0 < n) :
    deleteIssue now req s =
      if (s.rows.filter (fun r => decide (r.id = n))).length = 0 then
        { response := { status := 404, body := .message "Issue not found" },
          store := { s with rows := s.rows.filter (fun r => !decide (r.id = n)) },
          queries := [.deleteById (some i)] }
      else
        { response := { status := 200,
                        body := .deleted "Issue deleted successfully"
                          (s.rows.filter (fun r => decide (r.id = n))).head? },
          store := { s with rows := s.rows.filter (fun r => !decide (r.id = n)) },
          queries := [.deleteById (some i)] } := by
  rw [deleteIssue_eq, hreq, errorsOf_id_valid i n hi hpos]
  simp only [List.isEmpty_nil, if_true, deleteIssueHandler, hreq, toParam,
    dbQuery_deleteById now i n hi]

theorem dbQuery_selectById_store (now : Nat) (id : Option String) (s s1 : Store)
    (res : QueryResult) (h : dbQuery now (.selectById id) s = .ok (res, s1)) : s1 = s := by
  simp only [dbQuery] at h
  split at h
  · simp at h
  · simp only [Except.ok.injEq, Prod.mk.injEq] at h
    exact h.2.symm

theorem dbQuery_update_ids (now : Nat) (t d st pr id : Option String) (s s1 : Store)
    (res : QueryResult) (h : dbQuery now (.update t d st pr id) s = .ok (res, s1)) :
    s1.rows.map (fun r => r.id) = s.rows.map (fun r => r.id) ∧ s1.nextId = s.nextId := by
  simp only [dbQuery] at h
  split at h
  · simp at h
  · split_ifs at h
    · split at h
      · simp only [Except.ok.injEq, Prod.mk.injEq] at h
        rw [← h.2]
        refine ⟨?_, rfl⟩
        simp only [List.map_map]
        apply List.map_congr_left
        intro x _
        simp only [Function.comp]
        split_ifs <;> rfl
      · simp at h
    · simp only [Except.ok.injEq, Prod.mk.injEq] at h
      rw [← h.2]
      exact ⟨rfl, rfl⟩

theorem updateIssueHandler_ids (now : Nat) (req : Request) (s : Store) :
    (updateIssueHandler now req s).store.rows.map (fun r => r.id) = s.rows.map (fun r => r.id) ∧
    (updateIssueHandler now req s).store.nextId = s.nextId := by
  unfold updateIssueHandler
  simp only
  split
  · exact ⟨rfl, rfl⟩
  · rename_i res s1 hsel
    have hs1 := dbQuery_selectById_store _ _ _ _ _ hsel
    subst hs1
    split
    · exact ⟨rfl, rfl⟩
    · split
      · exact ⟨rfl, rfl⟩
      · rename_i res2 s2 hupd
        exact dbQuery_update_ids _ _ _ _ _ _ _ _ _ hupd

theorem updateIssue_ids (now : Nat) (req : Request) (s : Store) :
    (updateIssue now req s).store.rows.map (fun r => r.id) = s.rows.map (fun r => r.id) ∧
    (updateIssue now req s).store.nextId = s.nextId := by
  rw [updateIssue_eq]
  split_ifs
  · exact updateIssueHandler_ids now _ s
  · exact ⟨rfl, rfl⟩

/-- C7: for every id that denotes a positive integer and every payload that
passes validation, when the store holds no record with that id Update answers
404 with the message "Issue not found", the store is unchanged, and the only
query sent is the lookup: no UPDATE is issued.  And whatever the request, Update
creates no record: the identifiers in the store and the next identifier of the
sequence are the same after it as before. -/
theorem C7_update_of_missing_issue_is_not_found (now : Nat) (req : Request) (s : Store) :
    (∀ (i : String) (n : Nat), req.id = some (.str i) → integerIn i = some (n : Int) → 0 < n →
      (runChains validateIssueInput req).2 = [] → (∀ r ∈ s.rows, r.id ≠ n) →
      updateIssue now req s =
        { response := { status := 404, body := .message "Issue not found" }, store := s,
          queries := [.selectById (some i)] }) ∧
    (updateIssue now req s).store.rows.map (fun r => r.id) = s.rows.map (fun r => r.id) ∧
    (updateIssue now req s).store.nextId = s.nextId := by
  refine ⟨?_, updateIssue_ids now req s⟩
  intro i n hreq hi hpos hvalid habsent
  rw [runChains_validateIssueInput] at hvalid
  simp only at hvalid
  rw [updateIssue_eq, hvalid, hreq, errorsOf_id_valid i n hi hpos]
  simp only [List.append_nil, List.isEmpty_nil, if_true, updateIssueHandler, sanitizedBody, hreq,
    toParam, dbQuery_selectById now i n hi, filter_id_eq_nil s.rows n habsent]

/-- Witness of C7: an update of issue 7, which the example store does not hold. -/
theorem C7_update_of_missing_issue_is_not_found_witness :
    updateIssue 9 { id := some (.str "7"), title := some (.str "New title") } exampleStore =
      { response := { status := 404, body := .message "Issue not found" },
        store := exampleStore, queries := [.selectById (some "7")] } :=
  (C7_update_of_missing_issue_is_not_found 9
    { id := some (.str "7"), title := some (.str "New title") } exampleStore).1 "7" 7 rfl
    (by decide) (by decide) (by decide) (by decide)

theorem mergeParam_description (v : Option Json) (existing : Option String) :
    mergeParam (sanitized descriptionChain v) existing =
      match v with
      | none => existing
      | some .null => none
      | some (.str d) => some (trim d) := by
  rcases v with _ | _ | d
  · simp [sanitized, runItems_description, Optionality.skips, mergeParam]
  · simp [sanitized, runItems_description, Optionality.skips, mergeParam, toParam]
  · have h := toParam_sanitized_description (some (.str d))
    simp only at h
    cases hs : sanitized descriptionChain (some (.str d)) with
    | none =>
      simp only [sanitized, runItems_description] at hs
      split_ifs at hs
    | some w => rw [hs] at h; simpa [mergeParam] using h

theorem mergeParam_title (v : Option Json) (existing : Option String) :
    mergeParam (sanitized titleChain v) existing = some (trim (toStr v)) := by
  simp [sanitized_title, mergeParam, toParam]

theorem mergeParam_enum (c : Chain) (values : List String) (msg : String)
    (hopt : c.optional = .undefinedOnly)
    (hstack : c.stack = [.trim, .validate (.isIn values) msg]) (v : Option Json)
    (existing : String) :
    mergeParam (sanitized c v) (some existing) =
      some (match v with
        | none => existing
        | some w => trim (toStr (some w))) := by
  rw [sanitized_enum c values msg hopt hstack]
  cases v <;> simp [mergeParam, toParam]

theorem dbQuery_update (now : Nat) (i : String) (n : Nat) (hi : integerIn i = some (n : Int))
    (s : Store) (t st pr : String) (d : Option String)
    (hany : ∃ r ∈ s.rows, r.id = n) :
    dbQuery now (.update (some t) d (some st) (some pr) (some i)) s =
      .ok ({ rows := (s.rows.filter (fun r => decide (r.id = n))).map (fun r =>
               { r with title := t, description := d, status := st, priority := pr,
                        updated_at := now }),
             rowCount := ((s.rows.filter (fun r => decide (r.id = n))).map (fun r =>
               { r with title := t, description := d, status := st, priority := pr,
                        updated_at := now })).length },
           { s with rows := s.rows.map (fun r => if decide (r.id = n) = true then
               { r with title := t, description := d, status := st, priority := pr,
                        updated_at := now } else r) }) := by
  have : s.rows.any (fun r => decide (r.id = n)) = true := by
    simpa [List.any_eq_true] using hany
  simp [dbQuery, whereId_valid i n hi, this]

/-- C8: for every record `r` of a store with unique ids and every payload that
passes validation, Update on the id of `r` answers 200 with, and persists, the
record `r` in which each of title, description, status and priority that the
payload has takes the (trimmed) value of the payload and each one the payload
lacks keeps the value of `r`, and `updated_at` is the current time; `id` and
`created_at` are those of `r`, and every other record of the store is
unchanged. -/
theorem C8_update_merges_over_the_existing_record (now : Nat) (req : Request) (s : Store)
    (i : String) (n : Nat) (hreq : req.id = some (.str i))
    (hi : integerIn i = some (n : Int)) (hpos : 0 < n)
    (hvalid : (runChains validateIssueInput req).2 = [])
    (hnodup : (s.rows.map (fun x => x.id)).Nodup)
    (r : Issue) (hr : r ∈ s.rows) (hrid : r.id = n) :
    (let r1 : Issue :=
      { id := r.id,
        title := (match req.title with
          | none => r.title
          | some v => trim (toStr (some v))),
        description := (match req.description with
          | none => r.description
          | some .null => none
          | some (.str d) => some (trim d)),
        status := (match req.status with
          | none => r.status
          | some v => trim (toStr (some v))),
        priority := (match req.priority with
          | none => r.priority
          | some v => trim (toStr (some v))),
        created_at := r.created_at,
        updated_at := now }
    updateIssue now req s =
      { response := { status := 200, body := .issue r1 },
        store := { rows := s.rows.map (fun x => if x.id = n then r1 else x),
                   nextId := s.nextId },
        queries := [.selectById (some i),
          .update (some r1.title) r1.description (some r1.status) (some r1.priority)
            (some i)] }) := by
  rw [runChains_validateIssueInput] at hvalid
  simp only at hvalid
  obtain ⟨ht, -, -, -⟩ := bodyErrors_eq_nil req hvalid
  have htitle := title_present req.title ht
  obtain ⟨tv, htv⟩ : ∃ tv, req.title = some tv := by
    cases hq : req.title with
    | none => exact absurd hq htitle
    | some tv => exact ⟨tv, rfl⟩
  subst hrid
  have hfilter := filter_id_eq_singleton s.rows hnodup r hr
  rw [updateIssue_eq, hvalid, hreq, errorsOf_id_valid i r.id hi hpos]
  simp only [List.append_nil, List.isEmpty_nil, if_true, updateIssueHandler, sanitizedBody, hreq,
    toParam, dbQuery_selectById now i r.id hi, hfilter, mergeParam_description,
    mergeParam_enum statusChain _ _ rfl rfl, mergeParam_enum priorityChain _ _ rfl rfl,
    mergeParam_title, htv]
  rw [dbQuery_update now i r.id hi s _ _ _ _ ⟨r, hr, rfl⟩]
  simp only [hfilter, List.map_cons, List.map_nil, jsonRow, decide_eq_true_eq]
  congr 2
  apply List.map_congr_left
  intro x hx
  by_cases hxe : x.id = r.id
  · have := eq_of_id_eq s.rows hnodup r x hr hx hxe
    subst this
    simp
  · simp [hxe]

/-- Witness of C8: on the example store, an update of issue 1 that carries a
padded title and a status, and neither description nor priority. -/
theorem C8_update_merges_over_the_existing_record_witness :
    updateIssue 9
        { id := some (.str "1"), title := some (.str " Bug A2 "), status := some (.str "Closed") }
        exampleStore =
      { response := { status := 200,
                      body := .issue { id := 1, title := "Bug A2", description := some "first",
                                       status := "Closed", priority := "Medium",
                                       created_at := 5, updated_at := 9 } },
        store := { rows := [{ id := 1, title := "Bug A2", description := some "first",
                              status := "Closed", priority := "Medium", created_at := 5,
                              updated_at := 9 },
                            { id := 2, title := "Bug B", description := none,
                              status := "In Progress", priority := "High", created_at := 6,
                              updated_at := 7 }],
                   nextId := 3 },
        queries := [.selectById (some "1"),
          .update (some "Bug A2") (some "first") (some "Closed") (some "Medium") (some "1")] } :=
  C8_update_merges_over_the_existing_record 9
    { id := some (.str "1"), title := some (.str " Bug A2 "), status := some (.str "Closed") }
    exampleStore "1" 1 rfl (by decide) (by decide) (by decide) (by decide) exampleIssue
    (by decide) rfl

/-- C9: for every id that denotes a positive integer and every store with unique
ids: when no record has the id, Delete answers 404 with the message "Issue not
found" and the store is unchanged; when the record `r` has it, Delete answers
200 with a message and `deletedIssue` equal to `r` as stored, and the store
afterwards is the store before with `r` removed. -/
theorem C9_delete_removes_or_reports_not_found (now : Nat) (req : Request) (s : Store)
    (i : String) (n : Nat) (hreq : req.id = some (.str i))
    (hi : integerIn i = some (n : Int)) (hpos : 0 < n)
    (hnodup : (s.rows.map (fun x => x.id)).Nodup) :
    ((∀ r ∈ s.rows, r.id ≠ n) →
      deleteIssue now req s =
        { response := { status := 404, body := .message "Issue not found" }, store := s,
          queries := [.deleteById (some i)] }) ∧
    (∀ r ∈ s.rows, r.id = n →
      deleteIssue now req s =
        { response := { status := 200,
                        body := .deleted "Issue deleted successfully" (some r) },
          store := { rows := s.rows.erase r, nextId := s.nextId },
          queries := [.deleteById (some i)] }) := by
  constructor
  · intro habsent
    rw [deleteIssue_valid now req s i n hreq hi hpos, filter_id_eq_nil s.rows n habsent,
      filter_id_ne_self s.rows n habsent]
    rfl
  · intro r hr hrid
    subst hrid
    rw [deleteIssue_valid now req s i r.id hreq hi hpos, filter_id_eq_singleton s.rows hnodup r hr,
      filter_id_ne_erase s.rows hnodup r hr]
    rfl

/-- Witness of C9: deleting issue 1 of the example store. -/
theorem C9_delete_removes_or_reports_not_found_witness :
    deleteIssue 9 { id := some (.str "1") } exampleStore =
      { response := { status := 200,
                      body := .deleted "Issue deleted successfully" (some exampleIssue) },
        store := { rows := exampleStore.rows.erase exampleIssue, nextId := 3 },
        queries := [.deleteById (some "1")] } :=
  (C9_delete_removes_or_reports_not_found 9 { id := some (.str "1") } exampleStore "1" 1 rfl
    (by decide) (by decide) (by decide)).2 exampleIssue (by decide) rfl

/-- C10: for every store and every id that denotes a positive integer: when no
record has the id, two Deletes in a row both answer 404 and leave the store as
it was; when a record has it, the first Delete answers 200, and a second Delete
as well as a Get of the same id on the resulting store answer 404 with the
message "Issue not found". -/
theorem C10_delete_is_idempotent (now1 now2 : Nat) (req : Request) (s : Store)
    (i : String) (n : Nat) (hreq : req.id = some (.str i))
    (hi : integerIn i = some (n : Int)) (hpos : 0 < n) :
    ((∀ r ∈ s.rows, r.id ≠ n) →
      (deleteIssue now1 req s).response =
          { status := 404, body := .message "Issue not found" } ∧
      (deleteIssue now1 req s).store = s ∧
      (deleteIssue now2 req (deleteIssue now1 req s).store).response =
          { status := 404, body := .message "Issue not found" } ∧
      (deleteIssue now2 req (deleteIssue now1 req s).store).store = s) ∧
    ((∃ r ∈ s.rows, r.id = n) →
      (deleteIssue now1 req s).response.status = 200 ∧
      (deleteIssue now2 req (deleteIssue now1 req s).store).response =
          { status := 404, body := .message "Issue not found" } ∧
      (getIssue now2 req (deleteIssue now1 req s).store).response =
          { status := 404, body := .message "Issue not found" }) := by
  have hgone : ∀ r ∈ s.rows.filter (fun r => !decide (r.id = n)), r.id ≠ n := by
    intro r hr
    simpa using (List.mem_filter.mp hr).2
  constructor
  · intro habsent
    have h1 : deleteIssue now1 req s =
        { response := { status := 404, body := .message "Issue not found" }, store := s,
          queries := [.deleteById (some i)] } := by
      rw [deleteIssue_valid now1 req s i n hreq hi hpos, filter_id_eq_nil s.rows n habsent,
        filter_id_ne_self s.rows n habsent]
      rfl
    have h2 : deleteIssue now2 req s =
        { response := { status := 404, body := .message "Issue not found" }, store := s,
          queries := [.deleteById (some i)] } := by
      rw [deleteIssue_valid now2 req s i n hreq hi hpos, filter_id_eq_nil s.rows n habsent,
        filter_id_ne_self s.rows n habsent]
      rfl
    rw [h1]
    simp only [h2, and_self]
  · rintro ⟨r, hr, hrid⟩
    have hne : (s.rows.filter (fun r => decide (r.id = n))).length ≠ 0 := by
      intro h0
      have hnil := List.length_eq_zero.mp h0
      have : r ∈ s.rows.filter (fun r => decide (r.id = n)) :=
        List.mem_filter.mpr ⟨hr, by simpa using hrid⟩
      rw [hnil] at this
      simp at this
    have h1 : deleteIssue now1 req s =
        { response := { status := 200,
                        body := .deleted "Issue deleted successfully"
                          (s.rows.filter (fun r => decide (r.id = n))).head? },
          store := { s with rows := s.rows.filter (fun r => !decide (r.id = n)) },
          queries := [.deleteById (some i)] } := by
      rw [deleteIssue_valid now1 req s i n hreq hi hpos, if_neg hne]
    rw [h1]
    refine ⟨rfl, ?_, ?_⟩
    · rw [deleteIssue_valid now2 req _ i n hreq hi hpos, filter_id_eq_nil _ n hgone]
      rfl
    · rw [getIssue_valid now2 req _ i n hreq hi hpos, filter_id_eq_nil _ n hgone]
      rfl

/-- Witness of C10: issue 1 of the example store, deleted twice and then
fetched. -/
theorem C10_delete_is_idempotent_witness :
    (deleteIssue 9 { id := some (.str "1") } exampleStore).response.status = 200 ∧
    (deleteIssue 10 { id := some (.str "1") }
        (deleteIssue 9 { id := some (.str "1") } exampleStore).store).response =
      { status := 404, body := .message "Issue not found" } ∧
    (getIssue 10 { id := some (.str "1") }
        (deleteIssue 9 { id := some (.str "1") } exampleStore).store).response =
      { status := 404, body := .message "Issue not found" } :=
  (C10_delete_is_idempotent 9 10 { id := some (.str "1") } exampleStore "1" 1 rfl
    (by decide) (by decide)).2 ⟨exampleIssue, by decide, rfl⟩

/-! ## Get, List and the round trip: claims C11 to C13 and C20 -/

theorem getIssue_store (now : Nat) (req : Request) (s : Store) :
    (getIssue now req s).store = s := by
  rw [getIssue_eq]
  split_ifs
  · unfold getIssueHandler
    simp only
    split
    · rfl
    · rename_i res s1 hsel
      have := dbQuery_selectById_store _ _ _ _ _ hsel
      subst this
      split <;> rfl
  · rfl

theorem jsonRow_filter_mem (rows : List Issue) (n : Nat)
    (h : (rows.filter (fun r => decide (r.id = n))).length ≠ 0) :
    ∃ r ∈ rows, r.id = n ∧ jsonRow (rows.filter (fun r => decide (r.id = n))) = .issue r := by
  cases hf : rows.filter (fun r => decide (r.id = n)) with
  | nil => rw [hf] at h; simp at h
  | cons a rest =>
    have ha : a ∈ rows.filter (fun r => decide (r.id = n)) := by rw [hf]; simp
    have := List.mem_filter.mp ha
    exact ⟨a, this.1, by simpa using this.2, rfl⟩

/-- C11: for every id that denotes a positive integer and every store, Get
answers 404 with the message "Issue not found" if and only if no record has the
id; otherwise it answers 200 with a stored record of that id, unmodified, which
on a store with unique ids is the record of that id; in both cases the store is
unchanged and the only query is the lookup. -/
theorem C11_get_returns_the_stored_record (now : Nat) (req : Request) (s : Store)
    (i : String) (n : Nat) (hreq : req.id = some (.str i))
    (hi : integerIn i = some (n : Int)) (hpos : 0 < n) :
    ((getIssue now req s).response = { status := 404, body := .message "Issue not found" } ↔
      ∀ r ∈ s.rows, r.id ≠ n) ∧
    ((∃ r ∈ s.rows, r.id = n) →
      ∃ r ∈ s.rows, r.id = n ∧ (getIssue now req s).response = { status := 200, body := .issue r }) ∧
    (∀ r ∈ s.rows, r.id = n → (s.rows.map (fun x => x.id)).Nodup →
      (getIssue now req s).response = { status := 200, body := .issue r }) ∧
    (getIssue now req s).store = s ∧
    (getIssue now req s).queries = [.selectById (some i)] := by
  have hget := getIssue_valid now req s i n hreq hi hpos
  have hpresent : (∃ r ∈ s.rows, r.id = n) →
      (s.rows.filter (fun r => decide (r.id = n))).length ≠ 0 := by
    rintro ⟨r, hr, hrid⟩ h0
    have hnil := List.length_eq_zero.mp h0
    have : r ∈ s.rows.filter (fun r => decide (r.id = n)) :=
      List.mem_filter.mpr ⟨hr, by simpa using hrid⟩
    rw [hnil] at this
    simp at this
  refine ⟨?_, ?_, ?_, getIssue_store now req s, ?_⟩
  · constructor
    · intro h r hr hrid
      have hne := hpresent ⟨r, hr, hrid⟩
      rw [hget, if_neg hne] at h
      simp at h
    · intro habsent
      rw [hget, filter_id_eq_nil s.rows n habsent]
      rfl
  · intro hex
    have hne := hpresent hex
    obtain ⟨r, hr, hrid, hjson⟩ := jsonRow_filter_mem s.rows n hne
    refine ⟨r, hr, hrid, ?_⟩
    rw [hget, if_neg hne, hjson]
  · intro r hr hrid hnodup
    subst hrid
    rw [hget, filter_id_eq_singleton s.rows hnodup r hr]
    rfl
  · rw [hget]
    split_ifs <;> rfl

/-- Witness of C11: issue 2 of the example store. -/
theorem C11_get_returns_the_stored_record_witness :
    (getIssue 9 { id := some (.str "2") } exampleStore).response =
      { status := 200,
        body := .issue { id := 2, title := "Bug B", description := none,
                         status := "In Progress", priority := "High", created_at := 6,
                         updated_at := 7 } } :=
  (C11_get_returns_the_stored_record 9 { id := some (.str "2") } exampleStore "2" 2 rfl
    (by decide) (by decide)).2.2.1 _ (by decide) rfl (by decide)

theorem foldl_digit_step (ds : List Char) (acc : Nat) :
    ds.foldl (fun n c => 10 * n + (c.toNat - '0'.toNat)) acc =
      acc * 10 ^ ds.length + digitsValue ds := by
  induction ds generalizing acc with
  | nil => simp [digitsValue]
  | cons c rest ih =>
    simp only [digitsValue, List.foldl_cons, List.length_cons]
    rw [ih, ih (10 * 0 + (c.toNat - '0'.toNat))]
    ring

theorem digitChar_isDigit (d : Nat) (h : d < 10) :
    (Nat.digitChar d).isDigit = true ∧ (Nat.digitChar d).toNat - '0'.toNat = d := by
  interval_cases d <;> decide

theorem toDigitsCore_digits (fuel n : Nat) (ds : List Char) (hfuel : n < fuel)
    (hds : ∀ c ∈ ds, c.isDigit = true) :
    (∀ c ∈ Nat.toDigitsCore 10 fuel n ds, c.isDigit = true) ∧
    Nat.toDigitsCore 10 fuel n ds ≠ [] ∧
    digitsValue (Nat.toDigitsCore 10 fuel n ds) = n * 10 ^ ds.length + digitsValue ds := by
  induction fuel generalizing n ds with
  | zero => omega
  | succ fuel ih =>
    have hd := digitChar_isDigit (n % 10) (Nat.mod_lt _ (by omega))
    have hcons : ∀ c ∈ Nat.digitChar (n % 10) :: ds, c.isDigit = true := by
      intro c hc
      rcases List.mem_cons.mp hc with rfl | hc
      · exact hd.1
      · exact hds c hc
    have hval : digitsValue (Nat.digitChar (n % 10) :: ds) =
        (n % 10) * 10 ^ ds.length + digitsValue ds := by
      simp only [digitsValue, List.foldl_cons]
      rw [foldl_digit_step, hd.2]
      simp [digitsValue]
    simp only [Nat.toDigitsCore]
    split_ifs with h0
    · refine ⟨hcons, by simp, ?_⟩
      rw [hval]
      have : n % 10 = n := by omega
      rw [this]
    · have hlt : n / 10 < fuel := by omega
      obtain ⟨h1, h2, h3⟩ := ih (n / 10) (Nat.digitChar (n % 10) :: ds) hlt hcons
      refine ⟨h1, h2, ?_⟩
      rw [h3, hval, List.length_cons, pow_succ]
      have hn : n * 10 ^ ds.length = (10 * (n / 10) + n % 10) * 10 ^ ds.length := by
        rw [Nat.div_add_mod]
      rw [hn]
      ring

theorem matchesInt_of_digits (ds : List Char) (hne : ds ≠ []) (hds : ∀ c ∈ ds, c.isDigit = true) :
    matchesInt ds = true ∧ numberOf ds = (digitsValue ds : Int) := by
  cases ds with
  | nil => exact absurd rfl hne
  | cons c rest =>
    have hc : c.isDigit = true := hds c (by simp)
    have h1 : c ≠ '-' := by rintro rfl; exact absurd hc (by decide)
    have h2 : c ≠ '+' := by rintro rfl; exact absurd hc (by decide)
    constructor
    · unfold matchesInt
      split
      · rename_i heq; simp at heq; exact absurd heq.1 h1
      · rename_i heq; simp at heq; exact absurd heq.1 h2
      · simpa using hds
    · unfold numberOf
      split
      · rename_i heq; simp at heq; exact absurd heq.1 h1
      · rename_i heq; simp at heq; exact absurd heq.1 h2
      · rfl

theorem integerIn_idText (n : Nat) : integerIn (idText n) = some (n : Int) := by
  have h := toDigitsCore_digits (n + 1) n [] (by omega) (by simp)
  have hdata : (idText n).data = Nat.toDigitsCore 10 (n + 1) n [] := rfl
  obtain ⟨hm, hv⟩ := matchesInt_of_digits _ h.2.1 h.1
  simp only [integerIn, hdata, hm, if_true, hv, h.2.2]
  simp [digitsValue]

theorem createIssue_valid (now : Nat) (req : Request) (s : Store)
    (hvalid : bodyErrors req = []) :
    createIssue now req s =
      { response := { status := 201, body := .issue (createdIssue now req s) },
        store := { rows := s.rows ++ [createdIssue now req s], nextId := s.nextId + 1 },
        queries := [.insert (some (createdIssue now req s).title)
          (createdIssue now req s).description (some (createdIssue now req s).status)
          (some (createdIssue now req s).priority)] } := by
  rw [createIssue_eq, hvalid]
  simp only [List.isEmpty_nil, if_true, createIssueHandler, sanitizedBody, sanitized_title,
    sanitized_status, sanitized_priority, toParam_sanitized_description, createdIssue]
  rcases hd : req.description with _ | _ | d <;> rcases hs : req.status with _ | ws <;>
    rcases hp : req.priority with _ | wp <;> simp [toParam, dbQuery, jsonRow, toStr]

theorem filter_id_append_fresh (rows : List Issue) (c : Issue)
    (hfresh : ∀ r ∈ rows, r.id ≠ c.id) :
    (rows ++ [c]).filter (fun r => decide (r.id = c.id)) = [c] := by
  rw [List.filter_append, filter_id_eq_nil rows c.id hfresh]
  simp

/-- C12: on a store whose identifiers come from its sequence, for every payload
that passes validation Create answers 201 with a record `c`, and a Get of the
id of `c` served next (the path being the decimal digits of the id, or any other
text that denotes it) answers 200 with a record equal to `c` in every field. -/
theorem C12_create_then_get_round_trip (now1 now2 : Nat) (req : Request) (s : Store)
    (hwf : Spec.wellFormed s) (hvalid : (runChains validateIssueInput req).2 = []) :
    ∃ c : Issue,
      (createIssue now1 req s).response = { status := 201, body := .issue c } ∧
      (getIssue now2 { id := some (.str (idText c.id)) }
          (createIssue now1 req s).store).response = { status := 200, body := .issue c } ∧
      (∀ i : String, integerIn i = some (c.id : Int) →
        (getIssue now2 { id := some (.str i) } (createIssue now1 req s).store).response =
          { status := 200, body := .issue c }) := by
  rw [runChains_validateIssueInput] at hvalid
  simp only at hvalid
  have hc := createIssue_valid now1 req s hvalid
  have hid : (createdIssue now1 req s).id = s.nextId := rfl
  have hfresh : ∀ r ∈ s.rows, r.id ≠ (createdIssue now1 req s).id := by
    intro r hr
    have := (hwf.2.1 r hr).2
    rw [hid]
    omega
  have key : ∀ i : String, integerIn i = some ((createdIssue now1 req s).id : Int) →
      (getIssue now2 { id := some (.str i) } (createIssue now1 req s).store).response =
        { status := 200, body := .issue (createdIssue now1 req s) } := by
    intro i hi
    rw [getIssue_valid now2 _ _ i (createdIssue now1 req s).id rfl hi (by rw [hid]; exact hwf.1),
      hc]
    simp only [filter_id_append_fresh s.rows _ hfresh]
    rfl
  refine ⟨createdIssue now1 req s, by rw [hc], key _ (integerIn_idText _), key⟩

/-- Witness of C12: a create on the example store followed by a Get of "3". -/
theorem C12_create_then_get_round_trip_witness :
    ∃ c : Issue,
      (createIssue 9 { title := some (.str "Bug C") } exampleStore).response =
        { status := 201, body := .issue c } ∧
      (getIssue 10 { id := some (.str (idText c.id)) }
          (createIssue 9 { title := some (.str "Bug C") } exampleStore).store).response =
        { status := 200, body := .issue c } ∧
      (∀ i : String, integerIn i = some (c.id : Int) →
        (getIssue 10 { id := some (.str i) }
            (createIssue 9 { title := some (.str "Bug C") } exampleStore).store).response =
          { status := 200, body := .issue c }) :=
  C12_create_then_get_round_trip 9 10 { title := some (.str "Bug C") } exampleStore
    (by unfold Spec.wellFormed; decide) (by decide)

theorem listIssues_eq (now : Nat) (req : Request) (s : Store) :
    listIssues now req s =
      { response := { status := 200, body := .issues (orderByCreatedAtDesc s.rows) },
        store := s, queries := [.selectAll] } := rfl

theorem newerFirst_total (a b : Issue) : newerFirst a b ∨ newerFirst b a := by
  unfold newerFirst
  omega

theorem newerFirst_trans (a b c : Issue) (h1 : newerFirst a b) (h2 : newerFirst b c) :
    newerFirst a c := by
  unfold newerFirst at *
  omega

theorem orderByCreatedAtDesc_perm (rows : List Issue) :
    (orderByCreatedAtDesc rows).Perm rows :=
  List.perm_insertionSort newerFirst rows

theorem orderByCreatedAtDesc_sorted (rows : List Issue) :
    (orderByCreatedAtDesc rows).Pairwise (fun a b => b.created_at ≤ a.created_at) := by
  haveI : IsTotal Issue newerFirst := ⟨newerFirst_total⟩
  haveI : IsTrans Issue newerFirst := ⟨newerFirst_trans⟩
  exact List.sorted_insertionSort newerFirst rows

theorem orderByCreatedAtDesc_ties (rows : List Issue) (t : Nat) :
    (orderByCreatedAtDesc rows).filter (fun r => decide (r.created_at = t)) =
      rows.filter (fun r => decide (r.created_at = t)) := by
  have hpair : (rows.filter (fun r => decide (r.created_at = t))).Pairwise newerFirst := by
    rw [List.pairwise_iff_forall_sublist]
    intro a b hab
    have ha : a ∈ rows.filter (fun r => decide (r.created_at = t)) :=
      hab.subset (by simp)
    have hb : b ∈ rows.filter (fun r => decide (r.created_at = t)) :=
      hab.subset (by simp)
    have ha2 := (List.mem_filter.mp ha).2
    have hb2 := (List.mem_filter.mp hb).2
    simp only [decide_eq_true_eq] at ha2 hb2
    unfold newerFirst
    omega
  have hsub : List.Sublist (rows.filter (fun r => decide (r.created_at = t)))
      (orderByCreatedAtDesc rows) :=
    List.sublist_insertionSort hpair (List.filter_sublist rows)
  have hsub2 := hsub.filter (fun r => decide (r.created_at = t))
  rw [List.filter_filter] at hsub2
  simp only [Bool.and_self] at hsub2
  have hlen : ((orderByCreatedAtDesc rows).filter (fun r => decide (r.created_at = t))).length =
      (rows.filter (fun r => decide (r.created_at = t))).length :=
    ((orderByCreatedAtDesc_perm rows).filter _).length_eq
  exact (hsub2.eq_of_length hlen.symm).symm

/-- C13: for every store List answers 200 with a sequence that holds every
stored issue exactly once and nothing else (a permutation of the table), ordered
by `created_at` descending; issues created at times T1 < T2 < T3 come back in
the order T3, T2, T1; an empty store gives the empty sequence; the store is
never changed and the only query is the SELECT. -/
theorem C13_list_returns_all_newest_first (now : Nat) (req : Request) (s : Store) :
    (∃ rs : List Issue,
      listIssues now req s =
        { response := { status := 200, body := .issues rs }, store := s,
          queries := [.selectAll] } ∧
      rs.Perm s.rows ∧
      rs.Pairwise (fun a b => b.created_at ≤ a.created_at)) ∧
    (∀ (a b c : Issue) (k : Nat), a.created_at < b.created_at → b.created_at < c.created_at →
      (listIssues now req { rows := [a, b, c], nextId := k }).response =
        { status := 200, body := .issues [c, b, a] }) ∧
    (∀ k : Nat, (listIssues now req { rows := [], nextId := k }).response =
      { status := 200, body := .issues [] }) := by
  refine ⟨⟨orderByCreatedAtDesc s.rows, listIssues_eq now req s, orderByCreatedAtDesc_perm _,
    orderByCreatedAtDesc_sorted _⟩, ?_, ?_⟩
  · intro a b c k hab hbc
    rw [listIssues_eq]
    have h1 : ¬ newerFirst b c := by unfold newerFirst; omega
    have h2 : ¬ newerFirst a c := by unfold newerFirst; omega
    have h3 : ¬ newerFirst a b := by unfold newerFirst; omega
    simp [orderByCreatedAtDesc, List.insertionSort, List.orderedInsert, h1, h2, h3]
  · intro k
    rfl

/-- Witness of C13: three issues created at 1, 2 and 3 come back newest first. -/
theorem C13_list_returns_all_newest_first_witness :
    (listIssues 9 {}
        { rows := [{ exampleIssue with id := 1, created_at := 1 },
                   { exampleIssue with id := 2, created_at := 2 },
                   { exampleIssue with id := 3, created_at := 3 }],
          nextId := 4 }).response =
      { status := 200,
        body := .issues [{ exampleIssue with id := 3, created_at := 3 },
                         { exampleIssue with id := 2, created_at := 2 },
                         { exampleIssue with id := 1, created_at := 1 }] } :=
  (C13_list_returns_all_newest_first 9 {} exampleStore).2.1 _ _ _ 4 (by decide) (by decide)

/-- C20: for every store and every time `t`, the issues created at `t` appear in
the answer of List in the order they have in the table, which is the order of
insertion; on a table whose rows are in the order of their ids they appear in
the order of their ids.  The order among such issues is that of the store as the
specification describes it: the statement of the code has no second sort key. -/
theorem C20_list_keeps_ties_in_insertion_order (now : Nat) (req : Request) (s : Store)
    (t : Nat) :
    ∃ rs : List Issue,
      (listIssues now req s).response = { status := 200, body := .issues rs } ∧
      rs.filter (fun r => decide (r.created_at = t)) =
        s.rows.filter (fun r => decide (r.created_at = t)) ∧
      (s.rows.Pairwise (fun a b => a.id < b.id) →
        (rs.filter (fun r => decide (r.created_at = t))).Pairwise (fun a b => a.id < b.id)) := by
  refine ⟨orderByCreatedAtDesc s.rows, by rw [listIssues_eq], orderByCreatedAtDesc_ties _ t, ?_⟩
  intro h
  rw [orderByCreatedAtDesc_ties]
  exact h.filter _

/-- Witness of C20: two issues created at time 5 and a newer third; the two come
back in the order of the table. -/
theorem C20_list_keeps_ties_in_insertion_order_witness :
    ∃ rs : List Issue,
      (listIssues 9 {}
          { rows := [{ exampleIssue with id := 1, created_at := 5 },
                     { exampleIssue with id := 2, created_at := 5 },
                     { exampleIssue with id := 3, created_at := 6 }],
            nextId := 4 }).response = { status := 200, body := .issues rs } ∧
      rs.filter (fun r => decide (r.created_at = 5)) =
        [{ exampleIssue with id := 1, created_at := 5 },
         { exampleIssue with id := 2, created_at := 5 }] ∧
      (rs.filter (fun r => decide (r.created_at = 5))).Pairwise (fun a b => a.id < b.id) := by
  obtain ⟨rs, h1, h2, h3⟩ := C20_list_keeps_ties_in_insertion_order 9 {}
    { rows := [{ exampleIssue with id := 1, created_at := 5 },
               { exampleIssue with id := 2, created_at := 5 },
               { exampleIssue with id := 3, created_at := 6 }],
      nextId := 4 } 5
  exact ⟨rs, h1, h2.trans (by decide), h3 (by decide)⟩

/-! ## Invariants of the store: claims C14 and C15 -/

theorem surroundedBySpace_trimChars (cs : List Char) :
    Spec.surroundedBySpace (trimChars cs) = false := by
  unfold Spec.surroundedBySpace trimChars
  by_cases hne : (cs.dropWhile isSpace).rdropWhile isSpace = []
  · simp [hne]
  · have hpre : List.IsPrefix ((cs.dropWhile isSpace).rdropWhile isSpace)
        (cs.dropWhile isSpace) := List.rdropWhile_prefix isSpace _
    have hhead := hpre.head hne
    have hnot := List.head_dropWhile_not isSpace cs (hpre.ne_nil hne)
    have hlast := List.rdropWhile_last_not isSpace (cs.dropWhile isSpace) hne
    rw [List.head?_eq_head hne, List.getLast?_eq_getLast _ hne, hhead]
    simp only [Option.map, Option.getD, hnot, Bool.false_or]
    simpa using hlast

theorem titleOk_of_valid (v : Option Json) (h : errorsOf titleChain v = []) :
    titleOkAsCounted (trim (toStr v)) := by
  obtain ⟨h1, h2⟩ := title_valid v h
  refine ⟨by omega, h2, ?_⟩
  exact surroundedBySpace_trimChars _

theorem status_valid (w : Json) (h : errorsOf statusChain (some w) = []) :
    trim (toStr (some w)) ∈ Spec.statusValues := by
  rw [errorsOf_status] at h
  simp only at h
  split_ifs at h with hc
  simpa [Spec.statusValues] using hc

theorem priority_valid (w : Json) (h : errorsOf priorityChain (some w) = []) :
    trim (toStr (some w)) ∈ Spec.priorityValues := by
  rw [errorsOf_priority] at h
  simp only at h
  split_ifs at h with hc
  simpa [Spec.priorityValues] using hc

theorem dbQuery_selectById_rows (now : Nat) (id : Option String) (s s1 : Store)
    (res : QueryResult) (h : dbQuery now (.selectById id) s = .ok (res, s1)) :
    ∀ r ∈ res.rows, r ∈ s.rows := by
  simp only [dbQuery] at h
  split at h
  · simp at h
  · simp only [Except.ok.injEq, Prod.mk.injEq] at h
    rw [← h.1]
    intro r hr
    exact (List.mem_filter.mp hr).1

theorem dbQuery_update_rows (now : Nat) (t d st pr id : Option String) (s s1 : Store)
    (res : QueryResult) (h : dbQuery now (.update t d st pr id) s = .ok (res, s1)) :
    ∀ r1 ∈ s1.rows, r1 ∈ s.rows ∨
      (some r1.title = t ∧ some r1.status = st ∧ some r1.priority = pr) := by
  simp only [dbQuery] at h
  split at h
  · simp at h
  · split_ifs at h
    · split at h
      · simp only [Except.ok.injEq, Prod.mk.injEq] at h
        rw [← h.2]
        intro r1 hr1
        simp only [List.mem_map] at hr1
        obtain ⟨x, hx, rfl⟩ := hr1
        split_ifs
        · right; exact ⟨rfl, rfl, rfl⟩
        · left; exact hx
      · simp at h
    · simp only [Except.ok.injEq, Prod.mk.injEq] at h
      rw [← h.2]
      intro r1 hr1
      exact Or.inl hr1

theorem dbQuery_deleteById_rows (now : Nat) (id : Option String) (s s1 : Store)
    (res : QueryResult) (h : dbQuery now (.deleteById id) s = .ok (res, s1)) :
    ∀ r ∈ s1.rows, r ∈ s.rows := by
  simp only [dbQuery] at h
  split at h
  · simp at h
  · simp only [Except.ok.injEq, Prod.mk.injEq] at h
    rw [← h.2]
    intro r hr
    exact (List.mem_filter.mp hr).1

theorem deleteIssue_rows (now : Nat) (req : Request) (s : Store) :
    ∀ r ∈ (deleteIssue now req s).store.rows, r ∈ s.rows := by
  rw [deleteIssue_eq]
  split_ifs
  · unfold deleteIssueHandler
    simp only
    split
    · exact fun r hr => hr
    · rename_i res s1 hdel
      have := dbQuery_deleteById_rows _ _ _ _ _ hdel
      split <;> exact this
  · exact fun r hr => hr

theorem updateIssueHandler_rows (now : Nat) (req : Request) (s : Store)
    (hvalid : bodyErrors req = []) :
    ∀ r1 ∈ (updateIssueHandler now (sanitizedBody req) s).store.rows, r1 ∈ s.rows ∨
      (r1.title = trim (toStr req.title) ∧
       (r1.status ∈ Spec.statusValues ∨ ∃ e ∈ s.rows, r1.status = e.status) ∧
       (r1.priority ∈ Spec.priorityValues ∨ ∃ e ∈ s.rows, r1.priority = e.priority)) := by
  obtain ⟨-, -, hst, hpr⟩ := bodyErrors_eq_nil req hvalid
  unfold updateIssueHandler
  simp only
  split
  · exact fun r hr => Or.inl hr
  · rename_i res s1 hsel
    have hs1 := dbQuery_selectById_store _ _ _ _ _ hsel
    have hrows := dbQuery_selectById_rows _ _ _ _ _ hsel
    subst hs1
    split
    · exact fun r hr => Or.inl hr
    · rename_i existing rest hex
      have hmem : existing ∈ s1.rows := hrows existing (by rw [hex]; simp)
      split
      · exact fun r hr => Or.inl hr
      · rename_i res2 s2 hupd
        intro r1 hr1
        rcases dbQuery_update_rows _ _ _ _ _ _ _ _ _ hupd r1 hr1 with h | ⟨h1, h2, h3⟩
        · exact Or.inl h
        · right
          simp only [sanitizedBody, mergeParam_title,
            mergeParam_enum statusChain _ _ rfl rfl, mergeParam_enum priorityChain _ _ rfl rfl,
            Option.some.injEq] at h1 h2 h3
          refine ⟨h1, ?_, ?_⟩
          · cases hv : req.status with
            | none =>
              rw [hv] at h2
              exact Or.inr ⟨existing, hmem, h2⟩
            | some w =>
              rw [hv] at h2 hst
              exact Or.inl (by rw [h2]; exact status_valid w hst)
          · cases hv : req.priority with
            | none =>
              rw [hv] at h3
              exact Or.inr ⟨existing, hmem, h3⟩
            | some w =>
              rw [hv] at h3 hpr
              exact Or.inl (by rw [h3]; exact priority_valid w hpr)

/-- Every row of the store after a request was in the store before it, or was
written by a Create or an Update whose body passed validation: then its title is
the trimmed title of the body, and its status and priority are enumerated values
or those of a row that was in the store. -/
theorem serve_rows (op : Op) (now : Nat) (req : Request) (s : Store) :
    ∀ r1 ∈ (serve op now req s).store.rows, r1 ∈ s.rows ∨
      ((op = .create ∨ op = .update) ∧ errorsOf titleChain req.title = [] ∧
       r1.title = trim (toStr req.title) ∧
       (r1.status ∈ Spec.statusValues ∨ ∃ e ∈ s.rows, r1.status = e.status) ∧
       (r1.priority ∈ Spec.priorityValues ∨ ∃ e ∈ s.rows, r1.priority = e.priority)) := by
  cases op with
  | list => exact fun r hr => Or.inl hr
  | get =>
    intro r hr
    simp only [serve, getIssue_store] at hr
    exact Or.inl hr
  | delete => exact fun r hr => Or.inl (deleteIssue_rows now req s r hr)
  | create =>
    intro r1 hr1
    simp only [serve] at hr1
    by_cases hvalid : bodyErrors req = []
    · obtain ⟨ht, -, hst, hpr⟩ := bodyErrors_eq_nil req hvalid
      rw [createIssue_valid now req s hvalid] at hr1
      simp only [List.mem_append, List.mem_singleton] at hr1
      rcases hr1 with h | rfl
      · exact Or.inl h
      · refine Or.inr ⟨Or.inl rfl, ht, rfl, Or.inl ?_, Or.inl ?_⟩
        · simp only [createdIssue]
          cases hv : req.status with
          | none => simp [Spec.statusValues]
          | some w => rw [hv] at hst; exact status_valid w hst
        · simp only [createdIssue]
          cases hv : req.priority with
          | none => simp [Spec.priorityValues]
          | some w => rw [hv] at hpr; exact priority_valid w hpr
    · rw [createIssue_eq] at hr1
      have : (bodyErrors req).isEmpty = false := by
        cases hb : bodyErrors req with
        | nil => exact absurd hb hvalid
        | cons _ _ => rfl
      simp only [this, Bool.false_eq_true, if_false] at hr1
      exact Or.inl hr1
  | update =>
    intro r1 hr1
    simp only [serve] at hr1
    rw [updateIssue_eq] at hr1
    split_ifs at hr1 with hempty
    · have hnil : errorsOf idChain req.id ++ bodyErrors req = [] :=
        List.isEmpty_iff.mp hempty
      have hvalid : bodyErrors req = [] := (List.append_eq_nil.mp hnil).2
      obtain ⟨ht, -, -, -⟩ := bodyErrors_eq_nil req hvalid
      rcases updateIssueHandler_rows now req s hvalid r1 hr1 with h | ⟨h1, h2, h3⟩
      · exact Or.inl h
      · exact Or.inr ⟨Or.inr rfl, ht, h1, h2, h3⟩
    · exact Or.inl hr1

/-- C14: if every stored issue has a status among Open, In Progress, Closed and
a priority among Low, Medium, High, then after any one request (List, Get,
Create, Update or Delete, with any input, accepted or rejected) every stored
issue still has.  On the example store: a status " Closed " is stored as
"Closed", a priority " Low " as "Low", an omitted status is stored as "Open" by
Create and keeps its value "Open" in Update. -/
theorem C14_enumeration_invariant (op : Op) (now : Nat) (req : Request) (s : Store)
    (h : Spec.enumerated s) :
    Spec.enumerated (serve op now req s).store ∧
    ((serve .create 9 { title := some (.str "T"), status := some (.str " Closed ") }
        exampleStore).store.rows.map (fun r => (r.id, r.status, r.priority))) =
      [(1, "Open", "Medium"), (2, "In Progress", "High"), (3, "Closed", "Medium")] ∧
    ((serve .create 9 { title := some (.str "T") }
        exampleStore).store.rows.map (fun r => (r.id, r.status, r.priority))) =
      [(1, "Open", "Medium"), (2, "In Progress", "High"), (3, "Open", "Medium")] ∧
    ((serve .update 9
        { id := some (.str "1"), title := some (.str "T"), priority := some (.str " Low ") }
        exampleStore).store.rows.map (fun r => (r.id, r.status, r.priority))) =
      [(1, "Open", "Low"), (2, "In Progress", "High")] := by
  refine ⟨?_, by decide, by decide, by decide⟩
  intro r1 hr1
  rcases serve_rows op now req s r1 hr1 with hold | ⟨-, -, -, hst, hpr⟩
  · exact h r1 hold
  · constructor
    · rcases hst with hst | ⟨e, he, heq⟩
      · exact hst
      · rw [heq]; exact (h e he).1
    · rcases hpr with hpr | ⟨e, he, heq⟩
      · exact hpr
      · rw [heq]; exact (h e he).2

/-- Witness of C14: the example store is enumerated, and stays so after an
Update that sets a padded status. -/
theorem C14_enumeration_invariant_witness :
    Spec.enumerated (serve .update 9
      { id := some (.str "2"), title := some (.str "Bug B"), status := some (.str " Closed ") }
      exampleStore).store :=
  (C14_enumeration_invariant .update 9
    { id := some (.str "2"), title := some (.str "Bug B"), status := some (.str " Closed ") }
    exampleStore (by unfold Spec.enumerated; decide)).1

theorem titlesOk_serve (op : Op) (now : Nat) (req : Request) (s : Store)
    (h : titlesOkAsCounted s) : titlesOkAsCounted (serve op now req s).store := by
  intro r1 hr1
  rcases serve_rows op now req s r1 hr1 with hold | ⟨-, ht, htitle, -, -⟩
  · exact h r1 hold
  · rw [htitle]
    exact titleOk_of_valid req.title ht

theorem titlesOk_serveAll (reqs : List (Op × Nat × Request)) (s : Store)
    (h : titlesOkAsCounted s) : titlesOkAsCounted (serveAll reqs s) := by
  induction reqs generalizing s with
  | nil => exact h
  | cons x rest ih =>
    obtain ⟨op, now, req⟩ := x
    exact ih _ (titlesOk_serve op now req s h)

theorem bodyErrors_longTitle : bodyErrors { title := some (.str longTitle) } = [] := by
  obtain ⟨h1, h2, h3⟩ := longTitle_facts
  have ht : errorsOf titleChain (some (.str longTitle)) = [] := by
    rw [errorsOf_title]
    simp only [toStr_str, h1, h2, h3]
    decide
  simp only [bodyErrors, ht, List.nil_append]
  rfl

/-- C15, the claim as stated fails: on the example store, in which every title
has 1 to 255 characters and no surrounding white space, Create with the title of
255 letters and the variation selector U+FE0F answers 201 and writes that title,
which has 256 characters; the store reached is not a store of titles of 1 to 255
characters. -/
theorem C15_title_of_256_characters_is_stored :
    Spec.titlesOk exampleStore ∧
    (serve .create 9 { title := some (.str longTitle) } exampleStore).response.status = 201 ∧
    (∃ r ∈ (serve .create 9 { title := some (.str longTitle) } exampleStore).store.rows,
      r.title = longTitle) ∧
    longTitle.length = 256 ∧
    ¬ Spec.titlesOk (serve .create 9 { title := some (.str longTitle) } exampleStore).store := by
  obtain ⟨h1, h2, -⟩ := longTitle_facts
  have hc := createIssue_valid 9 { title := some (.str longTitle) } exampleStore
    bodyErrors_longTitle
  have htitle : (createdIssue 9 { title := some (.str longTitle) } exampleStore).title =
      longTitle := by
    simp only [createdIssue, toStr_str, h1]
  have hmem : createdIssue 9 { title := some (.str longTitle) } exampleStore ∈
      (serve .create 9 { title := some (.str longTitle) } exampleStore).store.rows := by
    simp only [serve]
    rw [hc]
    simp
  refine ⟨by unfold Spec.titlesOk Spec.titleOk; decide, ?_, ⟨_, hmem, htitle⟩, h2, ?_⟩
  · simp only [serve]
    rw [hc]
  · intro hall
    have := (hall _ hmem).2.1
    rw [htitle, h2] at this
    omega

/-- C15 as amended: every row that a request leaves in the store was there
before or was written by a Create or an Update, and then its title is the title
of the input with the surrounding white space removed, is not empty and has at
most 255 characters not counting the variation selectors U+FE0E and U+FE0F;
hence from a store in which every title is not empty, has at most 255 such
characters and no surrounding white space, every store reached by any sequence
of requests is such a store. -/
theorem C15_stored_title_invariant (op : Op) (now : Nat) (req : Request) (s : Store) :
    (∀ r1 ∈ (serve op now req s).store.rows, r1 ∈ s.rows ∨
      ((op = .create ∨ op = .update) ∧ r1.title = trim (toStr req.title) ∧
        titleOkAsCounted r1.title)) ∧
    (titlesOkAsCounted s →
      ∀ reqs : List (Op × Nat × Request), titlesOkAsCounted (serveAll reqs s)) := by
  constructor
  · intro r1 hr1
    rcases serve_rows op now req s r1 hr1 with hold | ⟨hop, ht, htitle, -, -⟩
    · exact Or.inl hold
    · refine Or.inr ⟨hop, htitle, ?_⟩
      rw [htitle]
      exact titleOk_of_valid req.title ht
  · intro h reqs
    exact titlesOk_serveAll reqs s h

/-- Witness of C15 as amended: the example store after a Create with a padded
title, an Update and a Delete. -/
theorem C15_stored_title_invariant_witness :
    titlesOkAsCounted (serveAll
      [(.create, 9, { title := some (.str "  Crash on save ") }),
       (.update, 10, { id := some (.str "1"), title := some (.str "Bug A, again\t") }),
       (.delete, 11, { id := some (.str "2") })] exampleStore) :=
  (C15_stored_title_invariant .list 9 {} exampleStore).2
    (by unfold titlesOkAsCounted titleOkAsCounted; decide) _

/-! ## The remaining field rules: claims C16 and C17 -/

theorem messagesFor_status (req : Request) :
    messagesFor "status" (runChains validateIssueInput req).2 =
      (match req.status with
        | none => []
        | some v =>
          if trim (toStr (some v)) ∈ Spec.statusValues then [] else ["Invalid status value."]) := by
  simp only [runChains_validateIssueInput, bodyErrors, messagesFor_append]
  rw [messagesFor_errorsOf_ne "status" titleChain _ (by decide),
    messagesFor_errorsOf_ne "status" descriptionChain _ (by decide),
    messagesFor_errorsOf_ne "status" priorityChain _ (by decide)]
  simp only [errorsOf_status, messagesFor, List.append_nil, List.nil_append]
  cases req.status with
  | none => rfl
  | some v =>
    simp only [Spec.statusValues]
    split_ifs <;> simp_all

theorem messagesFor_priority (req : Request) :
    messagesFor "priority" (runChains validateIssueInput req).2 =
      (match req.priority with
        | none => []
        | some v =>
          if trim (toStr (some v)) ∈ Spec.priorityValues then []
          else ["Invalid priority value."]) := by
  simp only [runChains_validateIssueInput, bodyErrors, messagesFor_append]
  rw [messagesFor_errorsOf_ne "priority" titleChain _ (by decide),
    messagesFor_errorsOf_ne "priority" descriptionChain _ (by decide),
    messagesFor_errorsOf_ne "priority" statusChain _ (by decide)]
  simp only [errorsOf_priority, messagesFor, List.append_nil, List.nil_append]
  cases req.priority with
  | none => rfl
  | some v =>
    simp only [Spec.priorityValues]
    split_ifs <;> simp_all

theorem messagesFor_description (req : Request) :
    messagesFor "description" (runChains validateIssueInput req).2 =
      (if 5000 < countedLength (trim (toStr req.description)) then
        ["Description cannot exceed 5000 characters."] else []) := by
  simp only [runChains_validateIssueInput, bodyErrors, messagesFor_append]
  rw [messagesFor_errorsOf_ne "description" titleChain _ (by decide),
    messagesFor_errorsOf_ne "description" statusChain _ (by decide),
    messagesFor_errorsOf_ne "description" priorityChain _ (by decide)]
  simp only [errorsOf_description, messagesFor, List.append_nil, List.nil_append]
  have hd : Optionality.falsy.skips req.description = true →
      (trim (toStr req.description)).length = 0 := fun h =>
    trim_length_of_length_zero _ ((falsy_skips_iff _).mp h)
  have hle := countedLength_le_length (trim (toStr req.description))
  split_ifs <;> simp_all
  omega

/-- C16: for status (values Open, In Progress, Closed) and for priority (values
Low, Medium, High) and every payload: when the field is absent validation
reports nothing for it; when it is present validation reports the error of the
field, once, if and only if the trimmed value is not one of the three values.
So "", "open" and "Done" are rejected as a status and " Open " is accepted, and
likewise "", "low" and "Urgent" as a priority and " Low ". -/
theorem C16_enumerated_field_rules (req : Request) :
    messagesFor "status" (runChains validateIssueInput req).2 =
      (match req.status with
        | none => []
        | some v =>
          if trim (toStr (some v)) ∈ Spec.statusValues then []
          else ["Invalid status value."]) ∧
    messagesFor "priority" (runChains validateIssueInput req).2 =
      (match req.priority with
        | none => []
        | some v =>
          if trim (toStr (some v)) ∈ Spec.priorityValues then []
          else ["Invalid priority value."]) ∧
    (∀ v ∈ ["", "open", "Done"],
      messagesFor "status" (runChains validateIssueInput
        { req with status := some (.str v) }).2 = ["Invalid status value."]) ∧
    messagesFor "status" (runChains validateIssueInput
      { req with status := some (.str " Open ") }).2 = [] ∧
    (∀ v ∈ ["", "low", "Urgent"],
      messagesFor "priority" (runChains validateIssueInput
        { req with priority := some (.str v) }).2 = ["Invalid priority value."]) ∧
    messagesFor "priority" (runChains validateIssueInput
      { req with priority := some (.str " Low ") }).2 = [] := by
  refine ⟨messagesFor_status req, messagesFor_priority req, ?_, ?_, ?_, ?_⟩
  · intro v hv
    rw [messagesFor_status]
    simp only [List.mem_cons, List.mem_singleton, List.not_mem_nil, or_false] at hv
    rcases hv with rfl | rfl | rfl <;> dsimp only <;> decide
  · rw [messagesFor_status]; dsimp only; decide
  · intro v hv
    rw [messagesFor_priority]
    simp only [List.mem_cons, List.mem_singleton, List.not_mem_nil, or_false] at hv
    rcases hv with rfl | rfl | rfl <;> dsimp only <;> decide
  · rw [messagesFor_priority]; dsimp only; decide

/-- C17, the claim as stated fails: the description of 5000 letters `d` followed
by the variation selector U+FE0E is present, is its own trimmed form, is not
empty and has 5001 characters, more than 5000, and validation reports no
description error for it. -/
theorem C17_description_of_5001_characters_is_accepted :
    trim longDescription = longDescription ∧
    (trim longDescription).length = 5001 ∧
    messagesFor "description" (runChains validateIssueInput
      { title := some (.str "T"), description := some (.str longDescription) }).2 = [] := by
  obtain ⟨h1, h2, h3⟩ := longDescription_facts
  refine ⟨h1, by rw [h1, h2], ?_⟩
  rw [messagesFor_description]
  simp only [toStr_str, h1, h3]
  decide

/-- C17 as amended: for every payload validation reports "Description cannot
exceed 5000 characters.", once, if and only if the description is present as a
text that is not empty once trimmed and whose trimmed length, not counting the
variation selectors U+FE0E and U+FE0F, exceeds 5000.  An absent or `null`
description, a description of white space only of any length, and one whose
trimmed length so counted is exactly 5000 produce no description error: a
description of `k` letters between any number of blanks and tabs is judged on
`k` alone, and a variation selector after `k + 1` letters leaves the count at
`k + 1`. -/
theorem C17_description_rule (req : Request) :
    messagesFor "description" (runChains validateIssueInput req).2 =
      (if 5000 < countedLength (trim (toStr req.description)) then
        ["Description cannot exceed 5000 characters."] else []) ∧
    ("Description cannot exceed 5000 characters." ∈
        messagesFor "description" (runChains validateIssueInput req).2 ↔
      ∃ d : String, req.description = some (.str d) ∧ (trim d).length ≠ 0 ∧
        5000 < countedLength (trim d)) ∧
    messagesFor "description" (runChains validateIssueInput
      { req with description := none }).2 = [] ∧
    messagesFor "description" (runChains validateIssueInput
      { req with description := some .null }).2 = [] ∧
    (∀ m k n : Nat,
      messagesFor "description" (runChains validateIssueInput
          { req with description := some (.str ⟨List.replicate m ' ' ++ List.replicate k 'a' ++
              List.replicate n '\t'⟩) }).2 =
        (if 5000 < k then ["Description cannot exceed 5000 characters."] else [])) ∧
    (∀ k : Nat,
      messagesFor "description" (runChains validateIssueInput
          { req with
            description := some (.str (lettersThenSelector k 'd' (Char.ofNat 0xFE0E))) }).2 =
        (if 5000 < k + 1 then ["Description cannot exceed 5000 characters."] else [])) := by
  refine ⟨messagesFor_description req, ?_, ?_, ?_, ?_, ?_⟩
  · rw [messagesFor_description]
    constructor
    · intro h
      split_ifs at h with hlen
      · rcases hd : req.description with _ | _ | d
        · rw [hd] at hlen; simp [toStr, trim, trimChars, countedLength] at hlen
        · rw [hd] at hlen; simp [toStr, trim, trimChars, countedLength] at hlen
        · rw [hd, toStr_str] at hlen
          have hle := countedLength_le_length (trim d)
          exact ⟨d, rfl, by omega, hlen⟩
      · simp at h
    · rintro ⟨d, hd, -, hlen⟩
      rw [hd, toStr_str, if_pos hlen]
      simp
  · rw [messagesFor_description]; rfl
  · rw [messagesFor_description]; rfl
  · intro m k n
    rw [messagesFor_description]
    simp only [toStr_str, trim, trimChars_padded, countedLength_letters]
  · intro k
    obtain ⟨h1, -, h3⟩ := lettersThenSelector_facts k 'd' (Char.ofNat 0xFE0E) (by decide)
      (by decide) (by decide) (by decide)
    rw [messagesFor_description]
    simp only [toStr_str, h1, h3]

/-! ## The error bodies: claims C18 and C19 -/

theorem serve_eq (op : Op) (now : Nat) (req : Request) (s : Store) :
    serve op now req s =
      if (runChains (chainsOf op) req).2.isEmpty then
        handlerOf op now (runChains (chainsOf op) req).1 s
      else { response := { status := 400, body := .errors ((runChains (chainsOf op) req).2) },
             store := s, queries := [] } := by
  cases op <;>
    simp only [serve, chainsOf, handlerOf, getIssue, createIssue, updateIssue, deleteIssue, route,
      handleValidationErrors_eq]
  rfl

theorem toJson_lookup (e : ValidationError) :
    e.toJson.lookup "msg" = some (.str e.msg) ∧ e.toJson.lookup "path" = some (.str e.path) ∧
    e.toJson.lookup "field" = none ∧ e.toJson.lookup "message" = none ∧
    (∀ k ∈ e.toJson.map (fun kv => kv.1), k ∈ ["type", "value", "msg", "path", "location"]) := by
  cases hv : e.value with
  | none => simp [ValidationError.toJson, hv, List.lookup]
  | some v => simp [ValidationError.toJson, hv, List.lookup]

theorem ruleTexts_of_mem_runItems (c : Chain) (items : List ChainItem) (v : Option Json)
    (hitems : ∀ val msg, ChainItem.validate val msg ∈ items → (c.field.path, msg) ∈ ruleTexts)
    (e : ValidationError) (h : e ∈ (runItems c items v).2) : (e.path, e.msg) ∈ ruleTexts := by
  induction items generalizing v with
  | nil => simp [runItems] at h
  | cons item rest ih =>
    have hrest : ∀ val msg, ChainItem.validate val msg ∈ rest →
        (c.field.path, msg) ∈ ruleTexts :=
      fun val msg hm => hitems val msg (List.mem_cons_of_mem _ hm)
    simp only [runItems] at h
    split_ifs at h
    · exact ih _ hrest h
    · simp only [List.mem_append] at h
      rcases h with h | h
      · cases item with
        | trim => simp [runItem] at h
        | validate val msg =>
          simp only [runItem] at h
          split_ifs at h
          · simp at h
          · simp only [List.mem_singleton] at h
            subst h
            exact hitems val msg (by simp)
      · exact ih _ hrest h

theorem ruleTexts_of_mem_runChains (cs : List Chain)
    (hcs : ∀ c ∈ cs, ∀ val msg, ChainItem.validate val msg ∈ c.stack →
      (c.field.path, msg) ∈ ruleTexts)
    (req : Request) (e : ValidationError) (h : e ∈ (runChains cs req).2) :
    (e.path, e.msg) ∈ ruleTexts := by
  induction cs generalizing req with
  | nil => simp [runChains_nil] at h
  | cons c rest ih =>
    rw [runChains_cons] at h
    simp only [List.mem_append] at h
    rcases h with h | h
    · exact ruleTexts_of_mem_runItems c c.stack _ (hcs c (by simp)) e h
    · exact ih (fun c2 hc2 => hcs c2 (List.mem_cons_of_mem _ hc2)) _ h

theorem chainsOf_ruleTexts (op : Op) :
    ∀ c ∈ chainsOf op, ∀ val msg, ChainItem.validate val msg ∈ c.stack →
      (c.field.path, msg) ∈ ruleTexts := by
  cases op <;>
    simp [chainsOf, validateIdParam, validateIssueInput, titleChain, descriptionChain,
      statusChain, priorityChain, idChain, ruleTexts, Field.path] <;>
    (intro val msg h; rcases h with ⟨-, rfl⟩ | ⟨-, rfl⟩ <;> simp)

/-- C18, the claim as stated fails: Create with a blank title is a validation
failure, answered 400 with one error, and that error has neither a key `field`
nor a key `message`; its keys are `type`, `value`, `msg`, `path`, `location`. -/
theorem C18_error_elements_have_no_field_and_message_keys :
    (createIssue 9 { title := some (.str " ") } exampleStore).response =
      { status := 400, body := .errors [titleRequiredError] } ∧
    titleRequiredError.toJson =
      [("type", .str "field"), ("value", .str ""), ("msg", .str "Title is required."),
       ("path", .str "title"), ("location", .str "body")] ∧
    ¬ (∀ e ∈ [titleRequiredError], Spec.hasFieldAndMessage e) := by
  refine ⟨by decide, by decide, ?_⟩
  intro h
  have := (h titleRequiredError (by simp)).1
  rw [(toJson_lookup titleRequiredError).2.2.1] at this
  simp at this

/-- C18 as amended: on every validation failure, that is whenever the chains of
a route report an error, the answer is 400 with the body `{ errors: [...] }`,
the array being the non-empty list of the errors; each element has its keys
among `type`, `value`, `msg`, `path`, `location`, names the offending field
under the key `path` and carries the text of the rule under the key `msg`, and
field and text are those of a rule of `validators.js`. -/
theorem C18_validation_failure_body_shape (op : Op) (now : Nat) (req : Request) (s : Store)
    (hfail : (runChains (chainsOf op) req).2 ≠ []) :
    ∃ es : List ValidationError,
      (serve op now req s).response = { status := 400, body := .errors es } ∧
      (serve op now req s).response.body.keys = ["errors"] ∧
      es = (runChains (chainsOf op) req).2 ∧ es ≠ [] ∧
      ∀ e ∈ es,
        (∀ k ∈ e.toJson.map (fun kv => kv.1), k ∈ ["type", "value", "msg", "path", "location"]) ∧
        e.toJson.lookup "path" = some (.str e.path) ∧
        e.toJson.lookup "msg" = some (.str e.msg) ∧
        (e.path, e.msg) ∈ ruleTexts := by
  have hne : (runChains (chainsOf op) req).2.isEmpty = false := by
    cases hb : (runChains (chainsOf op) req).2 with
    | nil => exact absurd hb hfail
    | cons _ _ => rfl
  have hserve := serve_eq op now req s
  simp only [hne, Bool.false_eq_true, if_false] at hserve
  refine ⟨(runChains (chainsOf op) req).2, by rw [hserve], by rw [hserve]; rfl, rfl, hfail, ?_⟩
  intro e he
  obtain ⟨h1, h2, -, -, h5⟩ := toJson_lookup e
  exact ⟨h5, h2, h1, ruleTexts_of_mem_runChains _ (chainsOf_ruleTexts op) req e he⟩

/-- Witness of C18 as amended: an Update with an invalid id and an invalid
status. -/
theorem C18_validation_failure_body_shape_witness :
    ∃ es : List ValidationError,
      (serve .update 9
        { id := some (.str "x"), title := some (.str "T"), status := some (.str "Done") }
        exampleStore).response = { status := 400, body := .errors es } ∧
      (serve .update 9
        { id := some (.str "x"), title := some (.str "T"), status := some (.str "Done") }
        exampleStore).response.body.keys = ["errors"] ∧
      es = (runChains (chainsOf .update)
        { id := some (.str "x"), title := some (.str "T"), status := some (.str "Done") }).2 ∧
      es ≠ [] ∧
      ∀ e ∈ es,
        (∀ k ∈ e.toJson.map (fun kv => kv.1), k ∈ ["type", "value", "msg", "path", "location"]) ∧
        e.toJson.lookup "path" = some (.str e.path) ∧
        e.toJson.lookup "msg" = some (.str e.msg) ∧
        (e.path, e.msg) ∈ ruleTexts :=
  C18_validation_failure_body_shape .update 9
    { id := some (.str "x"), title := some (.str "T"), status := some (.str "Done") }
    exampleStore (by decide)

/-- C19, the claim as stated fails: two store failures without a status and with
different internal messages get different response bodies, each carrying the
internal message. -/
theorem C19_internal_message_reaches_the_client :
    errorHandler { status := none, message := "connect ECONNREFUSED 127.0.0.1:5432" } =
      { status := 500, body := .error "connect ECONNREFUSED 127.0.0.1:5432" } ∧
    errorHandler { status := none, message := "relation issues does not exist" } =
      { status := 500, body := .error "relation issues does not exist" } ∧
    (errorHandler { status := none, message := "connect ECONNREFUSED 127.0.0.1:5432" }).body ≠
      (errorHandler { status := none, message := "relation issues does not exist" }).body := by
  decide

theorem handlerOf_first_query_fails (op : Op) (now : Nat) (req : Request) (s : Store)
    (err : Err) (hfail : dbQuery now (firstQuery op req) s = .error err) :
    handlerOf op now req s =
      { response := errorHandler err, store := s, queries := [firstQuery op req] } := by
  cases op with
  | list =>
    have h : listIssuesHandler now req s =
        (match dbQuery now (firstQuery .list req) s with
          | .error e => { response := errorHandler e, store := s, queries := [firstQuery .list req] }
          | .ok (res, s1) =>
            { response := { status := 200, body := .issues res.rows }, store := s1,
              queries := [firstQuery .list req] }) := rfl
    rw [handlerOf, h, hfail]
  | get =>
    have h : getIssueHandler now req s =
        (match dbQuery now (firstQuery .get req) s with
          | .error e => { response := errorHandler e, store := s, queries := [firstQuery .get req] }
          | .ok (res, s1) =>
            if res.rows.length = 0 then
              { response := { status := 404, body := .message "Issue not found" }, store := s1,
                queries := [firstQuery .get req] }
            else
              { response := { status := 200, body := jsonRow res.rows }, store := s1,
                queries := [firstQuery .get req] }) := rfl
    rw [handlerOf, h, hfail]
  | create =>
    have h : createIssueHandler now req s =
        (match dbQuery now (firstQuery .create req) s with
          | .error e =>
            { response := errorHandler e, store := s, queries := [firstQuery .create req] }
          | .ok (res, s1) =>
            { response := { status := 201, body := jsonRow res.rows }, store := s1,
              queries := [firstQuery .create req] }) := rfl
    rw [handlerOf, h, hfail]
  | update =>
    unfold handlerOf updateIssueHandler
    simp only [firstQuery] at hfail
    simp only [hfail, firstQuery]
  | delete =>
    have h : deleteIssueHandler now req s =
        (match dbQuery now (firstQuery .delete req) s with
          | .error e =>
            { response := errorHandler e, store := s, queries := [firstQuery .delete req] }
          | .ok (result, s1) =>
            if result.rowCount = 0 then
              { response := { status := 404, body := .message "Issue not found" }, store := s1,
                queries := [firstQuery .delete req] }
            else
              { response := { status := 200,
                              body := .deleted "Issue deleted successfully" result.rows.head? },
                store := s1, queries := [firstQuery .delete req] }) := rfl
    rw [handlerOf, h, hfail]

/-- C19 as amended: for an error that carries no status the centralized handler
answers 500 with the body `{ error: { message } }`, in which `message` is the
message of the error itself, and "Internal Server Error" only when the error has
an empty message; and when the first store query of a handler fails with the
error, the answer of the handler is that of the centralized handler on it, the
store is unchanged. -/
theorem C19_error_handler_passes_the_message (err : Err) (hstatus : err.status = none) :
    errorHandler err =
      { status := 500,
        body := .error (if err.message.length = 0 then "Internal Server Error"
                        else err.message) } ∧
    (errorHandler err).body.keys = ["error"] ∧
    (∀ (op : Op) (now : Nat) (req : Request) (s : Store),
      dbQuery now (firstQuery op req) s = .error err →
      handlerOf op now req s =
        { response := errorHandler err, store := s, queries := [firstQuery op req] }) := by
  refine ⟨?_, rfl, ?_⟩
  · simp [errorHandler, hstatus]
  · intro op now req s hfail
    exact handlerOf_first_query_fails op now req s err hfail

/-- Witness of C19 as amended: a connection failure handed to the centralized
handler, and the Get handler on a text the store refuses as an integer. -/
theorem C19_error_handler_passes_the_message_witness :
    errorHandler { status := none, message := "connect ECONNREFUSED 127.0.0.1:5432" } =
      { status := 500, body := .error "connect ECONNREFUSED 127.0.0.1:5432" } ∧
    handlerOf .get 9 { id := some (.str "abc") } exampleStore =
      { response := { status := 500, body := .error "invalid input syntax for type integer" },
        store := exampleStore, queries := [.selectById (some "abc")] } :=
  ⟨(C19_error_handler_passes_the_message
      { status := none, message := "connect ECONNREFUSED 127.0.0.1:5432" } rfl).1,
   (C19_error_handler_passes_the_message
      { status := none, message := "invalid input syntax for type integer" } rfl).2.2
      .get 9 { id := some (.str "abc") } exampleStore rfl⟩

/-! ## The stores the operations produce -/

theorem deleteIssue_store (now : Nat) (req : Request) (s : Store) :
    (deleteIssue now req s).store.nextId = s.nextId ∧
    List.Sublist (deleteIssue now req s).store.rows s.rows := by
  rw [deleteIssue_eq]
  split_ifs
  · unfold deleteIssueHandler
    simp only
    split
    · exact ⟨rfl, List.Sublist.refl _⟩
    · rename_i res s1 hdel
      have hs1 : s1.nextId = s.nextId ∧ List.Sublist s1.rows s.rows := by
        simp only [dbQuery] at hdel
        split at hdel
        · simp at hdel
        · simp only [Except.ok.injEq, Prod.mk.injEq] at hdel
          rw [← hdel.2]
          exact ⟨rfl, List.filter_sublist _⟩
      split <;> exact hs1
  · exact ⟨rfl, List.Sublist.refl _⟩

theorem createIssue_store (now : Nat) (req : Request) (s : Store) :
    (createIssue now req s).store = s ∨
    (createIssue now req s).store =
      { rows := s.rows ++ [createdIssue now req s], nextId := s.nextId + 1 } := by
  by_cases hvalid : bodyErrors req = []
  · right
    rw [createIssue_valid now req s hvalid]
  · left
    rw [createIssue_eq]
    have : (bodyErrors req).isEmpty = false := by
      cases hb : bodyErrors req with
      | nil => exact absurd hb hvalid
      | cons _ _ => rfl
    simp only [this, Bool.false_eq_true, if_false]

/-- The stores the store itself produces are closed under the operations: a
request served on a well-formed store leaves a well-formed store. -/
theorem wellFormed_serve (op : Op) (now : Nat) (req : Request) (s : Store)
    (h : Spec.wellFormed s) : Spec.wellFormed (serve op now req s).store := by
  obtain ⟨hpos, hids, hnodup⟩ := h
  cases op with
  | list => exact ⟨hpos, hids, hnodup⟩
  | get =>
    simp only [serve, getIssue_store]
    exact ⟨hpos, hids, hnodup⟩
  | create =>
    simp only [serve]
    rcases createIssue_store now req s with hs | hs
    · rw [hs]; exact ⟨hpos, hids, hnodup⟩
    · rw [hs]
      refine ⟨by simp, ?_, ?_⟩
      · intro r hr
        simp only [List.mem_append, List.mem_singleton] at hr
        rcases hr with hr | rfl
        · have := hids r hr
          exact ⟨this.1, by simp only; omega⟩
        · exact ⟨hpos, by simp [createdIssue]⟩
      · simp only [List.map_append, List.map_cons, List.map_nil]
        rw [List.nodup_append]
        refine ⟨hnodup, by simp, ?_⟩
        intro a ha hb
        simp only [List.mem_singleton] at hb
        simp only [List.mem_map] at ha
        obtain ⟨r, hr, rfl⟩ := ha
        have := (hids r hr).2
        simp only [createdIssue] at hb
        omega
  | update =>
    simp only [serve]
    obtain ⟨hmap, hnext⟩ := updateIssue_ids now req s
    refine ⟨by rw [hnext]; exact hpos, ?_, by rw [hmap]; exact hnodup⟩
    intro r hr
    have hmem : r.id ∈ (updateIssue now req s).store.rows.map (fun r => r.id) :=
      List.mem_map.mpr ⟨r, hr, rfl⟩
    rw [hmap] at hmem
    obtain ⟨r0, hr0, heq⟩ := List.mem_map.mp hmem
    have := hids r0 hr0
    rw [hnext, ← heq]
    exact this
  | delete =>
    simp only [serve]
    obtain ⟨hnext, hsub⟩ := deleteIssue_store now req s
    refine ⟨by rw [hnext]; exact hpos, ?_, (hsub.map _).nodup hnodup⟩
    intro r hr
    rw [hnext]
    exact hids r (hsub.subset hr)

/-! ## Omitted and emptied description in Update: claim C21 -/

theorem updateIssue_valid (now : Nat) (req : Request) (s : Store)
    (i : String) (n : Nat) (hreq : req.id = some (.str i))
    (hi : integerIn i = some (n : Int)) (hpos : 0 < n)
    (hvalid : bodyErrors req = [])
    (hnodup : (s.rows.map (fun x => x.id)).Nodup)
    (r : Issue) (hr : r ∈ s.rows) (hrid : r.id = n) :
    updateIssue now req s =
      { response := { status := 200, body := .issue (updatedIssue now req r) },
        store := { rows := s.rows.map (fun x => if x.id = n then updatedIssue now req r else x),
                   nextId := s.nextId },
        queries := [.selectById (some i),
          .update (some (updatedIssue now req r).title) (updatedIssue now req r).description
            (some (updatedIssue now req r).status) (some (updatedIssue now req r).priority)
            (some i)] } := by
  obtain ⟨ht, -, -, -⟩ := bodyErrors_eq_nil req hvalid
  have htitle := title_present req.title ht
  obtain ⟨tv, htv⟩ : ∃ tv, req.title = some tv := by
    cases hq : req.title with
    | none => exact absurd hq htitle
    | some tv => exact ⟨tv, rfl⟩
  subst hrid
  have hfilter := filter_id_eq_singleton s.rows hnodup r hr
  rw [updateIssue_eq, hvalid, hreq, errorsOf_id_valid i r.id hi hpos]
  simp only [List.append_nil, List.isEmpty_nil, if_true, updateIssueHandler, sanitizedBody, hreq,
    toParam, dbQuery_selectById now i r.id hi, hfilter, mergeParam_description,
    mergeParam_enum statusChain _ _ rfl rfl, mergeParam_enum priorityChain _ _ rfl rfl,
    mergeParam_title, htv]
  rw [dbQuery_update now i r.id hi s _ _ _ _ ⟨r, hr, rfl⟩]
  rcases hd : req.description with _ | _ | d <;> rcases hs : req.status with _ | ws <;>
    rcases hp : req.priority with _ | wp <;>
    simp only [updatedIssue, hd, hs, hp, htv, hfilter, List.map_cons, List.map_nil, jsonRow,
      decide_eq_true_eq] <;>
    (congr 2
     apply List.map_congr_left
     intro x hx
     by_cases hxe : x.id = r.id
     · have := eq_of_id_eq s.rows hnodup r x hr hx hxe
       subst this
       simp
     · simp [hxe])

theorem bodyErrors_description_falsy (req : Request) (d : Option Json)
    (hd : errorsOf descriptionChain d = [])
    (hvalid : bodyErrors { req with description := none } = []) :
    bodyErrors { req with description := d } = [] := by
  obtain ⟨ht, -, hst, hpr⟩ := bodyErrors_eq_nil _ hvalid
  simp only at ht hst hpr
  simp only [bodyErrors, ht, hd, hst, hpr, List.append_nil]

/-- C21: in Update on an existing record (id valid, ids unique) with a payload
whose title, status and priority pass validation, the description is treated in
three ways.  A payload without description keeps the stored description.  A
payload whose description is the empty string passes validation and the record
is written with the empty string as description.  A payload whose description is
`null` passes validation and the record is written with no description (`NULL`).
In each case the answer is 200 with the written record and the other records are
unchanged. -/
theorem C21_description_omitted_kept_emptied_overwritten (now : Nat) (req : Request)
    (s : Store) (i : String) (n : Nat) (hreq : req.id = some (.str i))
    (hi : integerIn i = some (n : Int)) (hpos : 0 < n)
    (hvalid : (runChains validateIssueInput { req with description := none }).2 = [])
    (hnodup : (s.rows.map (fun x => x.id)).Nodup)
    (r : Issue) (hr : r ∈ s.rows) (hrid : r.id = n) :
    (∀ d ∈ [none, some (Json.str ""), some Json.null],
      (runChains validateIssueInput { req with description := d }).2 = [] ∧
      (updateIssue now { req with description := d } s).response =
        { status := 200,
          body := .issue (updatedIssue now { req with description := d } r) } ∧
      (updateIssue now { req with description := d } s).store =
        { rows := s.rows.map (fun x =>
            if x.id = n then updatedIssue now { req with description := d } r else x),
          nextId := s.nextId }) ∧
    (updatedIssue now { req with description := none } r).description = r.description ∧
    (updatedIssue now { req with description := some (.str "") } r).description = some "" ∧
    (updatedIssue now { req with description := some .null } r).description = none := by
  rw [runChains_validateIssueInput] at hvalid
  simp only at hvalid
  refine ⟨?_, rfl, rfl, rfl⟩
  intro d hd
  have hdesc : errorsOf descriptionChain d = [] := by
    simp only [List.mem_cons, List.mem_singleton, List.not_mem_nil, or_false] at hd
    rcases hd with rfl | rfl | rfl <;> rfl
  have hv := bodyErrors_description_falsy req d hdesc hvalid
  have hu := updateIssue_valid now { req with description := d } s i n hreq hi hpos hv hnodup r
    hr hrid
  refine ⟨by rw [runChains_validateIssueInput]; exact hv, by rw [hu], by rw [hu]⟩

/-- Witness of C21: issue 1 of the example store, whose description is "first",
updated with the description as the empty string: the stored description is the
empty string. -/
theorem C21_description_omitted_kept_emptied_overwritten_witness :
    (updateIssue 9
        { id := some (.str "1"), title := some (.str "Bug A"), description := some (.str "") }
        exampleStore).response =
      { status := 200,
        body := .issue { id := 1, title := "Bug A", description := some "", status := "Open",
                         priority := "Medium", created_at := 5, updated_at := 9 } } :=
  ((C21_description_omitted_kept_emptied_overwritten 9
      { id := some (.str "1"), title := some (.str "Bug A") } exampleStore "1" 1 rfl
      (by decide) (by decide) (by decide) (by decide) exampleIssue (by decide) rfl).1
    (some (.str "")) (by simp)).2.1

end IssueTracker
